import Mathlib

/-!
Shallow embedding of the ANIMA webhook service (directory src/api of the
repository) in Lean 4.

Modelling conventions:
* Python floats are modelled as exact rationals.
* Python strings are Lean strings; positions and lengths count characters,
  as Python does.
* Every regular expression appearing in the source is an alternation of
  literal substrings (occasionally with a one-character group such as
  `вин(а|ю)`, expanded to its literal alternatives, or a word-boundary
  marker, modelled explicitly).  `re.search` is modelled as a left-most
  substring matcher returning the earliest match position.
* Database access is modelled by explicit state passing on a world record
  holding the single user's app-state blob, profile row and event log.
-/

namespace Anima

/-- Python `str.lower` restricted to the alphabets appearing in the code
base: ASCII letters and the Russian alphabet (А..Я and Ё). -/
def pyLowerChar (c : Char) : Char :=
  if 'A' ≤ c ∧ c ≤ 'Z' then Char.ofNat (c.toNat + 32)
  else if 'А' ≤ c ∧ c ≤ 'Я' then Char.ofNat (c.toNat + 32)
  else if c = 'Ё' then 'ё'
  else c

/-- Python whitespace (`\s`, `str.strip`) for the ASCII range used here. -/
def isPySpace (c : Char) : Bool :=
  c = ' ' || c = '\t' || c = '\n' || c = '\r' || c.toNat = 11 || c.toNat = 12

/-- Python `str.strip` on a character list. -/
def stripData (t : List Char) : List Char :=
  ((t.dropWhile isPySpace).reverse.dropWhile isPySpace).reverse

/-- Python `str.strip` on strings. -/
def pyStrip (s : String) : String := ⟨stripData s.data⟩

/-- Lower-cased character data of a string (Python `s.lower()`). -/
def lowerData (s : String) : List Char := s.data.map pyLowerChar

/-- Boolean prefix test on character lists. -/
def isPre : List Char → List Char → Bool
  | [], _ => true
  | _ :: _, [] => false
  | a :: as, b :: bs => a == b && isPre as bs

/-- Earliest position at which one of the literal alternatives matches
(the position `re.search` reports for an alternation of literals). -/
def findPos (pats : List (List Char)) : List Char → Option Nat
  | [] => if pats.any (fun p => p.isEmpty) then some 0 else none
  | c :: rest =>
      if pats.any (fun p => isPre p (c :: rest)) then some 0
      else (findPos pats rest).map (· + 1)

/-- `re.search` as a Boolean, for an alternation of literal patterns. -/
def searchAny (pats : List String) (t : List Char) : Bool :=
  (findPos (pats.map String.data) t).isSome

/-- Python substring containment `p in t`. -/
def hasSub (p t : List Char) : Bool := (findPos [p] t).isSome

/-- Python `\w` (word character) for the alphabets used here. -/
def isWordChar (c : Char) : Bool :=
  c.isAlphanum || c = '_' || ('а' ≤ c && c ≤ 'я') || ('А' ≤ c && c ≤ 'Я') ||
  c = 'ё' || c = 'Ё'

/-- Boundary condition before a `\b`-delimited match. -/
def bdryBefore : Option Char → Bool
  | none => true
  | some c => !isWordChar c

/-- Boundary condition after a `\b`-delimited match. -/
def bdryAfter : List Char → Bool
  | [] => true
  | c :: _ => !isWordChar c

/-- Search for `\bp\b` in `t`: the pattern must occur delimited by
non-word characters (or the ends of the text). -/
def wordMatchAux (p : List Char) : Option Char → List Char → Bool
  | _, [] => false
  | prev, c :: rest =>
      (bdryBefore prev && isPre p (c :: rest) &&
        bdryAfter (List.drop p.length (c :: rest)))
      || wordMatchAux p (some c) rest

/-- Word-boundary search `\bp\b`. -/
def wordMatch (p : String) (t : List Char) : Bool := wordMatchAux p.data none t

/-- Python `lab.split()`: split on whitespace runs, discarding empties. -/
def splitWsAux : List Char → List Char → List (List Char)
  | [], acc => if acc.isEmpty then [] else [acc.reverse]
  | c :: rest, acc =>
      if isPySpace c then
        if acc.isEmpty then splitWsAux rest [] else acc.reverse :: splitWsAux rest []
      else splitWsAux rest (c :: acc)

/-- Python `lab.split()` on a character list. -/
def splitWs (t : List Char) : List (List Char) := splitWsAux t []

/-! ## Safety patterns (src/api/main.py lines 46-50) -/

/-- STOP pattern alternatives (sensitive topics). -/
def STOP_pats : List String :=
  ["политик", "религ", "насили", "медицинск", "вакцин", "диагноз", "лекарств", "суицид"]

/-- CRISIS pattern alternatives. -/
def CRISIS_pats : List String :=
  ["не хочу жить", "самоповрежд", "отчаяни", "суицид", "покончи", "боль невыносима"]

/-- `crisis_detect` (main.py line 49): case-insensitive search of CRISIS. -/
def crisis_detect (t : String) : Bool := searchAny CRISIS_pats (lowerData t)

/-- `STOP.search` (case-insensitive). -/
def stop_search (t : String) : Bool := searchAny STOP_pats (lowerData t)

/-! ## Emotion classifier (main.py lines 53-58) -/

/-- `detect_emotion`. -/
def detect_emotion (t : String) : String :=
  let tl := lowerData t
  if searchAny ["устал", "напряж", "тревож", "страш", "злюсь", "злость", "раздраж",
                "тяжело", "грустн", "паник"] tl then "tense"
  else if searchAny ["спокойн", "рад", "легко", "хорошо", "получилось", "ясно"] tl then "calm"
  else if searchAny ["не знаю", "путаюсь", "сомнева", "непонят", "растерян"] tl then "uncertain"
  else "neutral"

/-! ## MI phase FSM (main.py lines 61-68) -/

/-- `choose_phase`. -/
def choose_phase (lastPhase : String) (emotion : String) (text : String) : String :=
  let tl := lowerData text
  if emotion = "tense" ∨ emotion = "uncertain" then "engage"
  else if wordMatch "фокус" tl || searchAny ["главн", "сосредоточ"] tl then "focus"
  else if wordMatch "почему" tl || wordMatch "зачем" tl ||
          searchAny ["думаю", "хочу понять", "кажется"] tl then "evoke"
  else if searchAny ["готов", "сделаю", "попробую", "начну", "планир"] tl then "plan"
  else if lastPhase = "engage" then "focus" else lastPhase

/-- `reflect_emotion` (main.py lines 197-202). -/
def reflect_emotion (text : String) : String :=
  let t := lowerData text
  if searchAny ["устал", "напряж", "тревож", "злюсь", "злость", "раздраж",
                "тяжело", "грустн", "паник"] t then "Слышу напряжение и заботу о результате. "
  else if searchAny ["спокойн", "рад", "легко", "получилось", "хорошо", "ясно"] t then
    "Чувствую спокойствие и лёгкость. "
  else if searchAny ["не знаю", "путаюсь", "сомнева", "непонят", "растерян"] t then
    "Вижу, что хочется ясности. "
  else "Я рядом и слышу тебя. "

/-! ## Quality gate (main.py lines 505-512) -/

/-- Empathic vocabulary of the quality gate. -/
def EMPATH_pats : List String :=
  ["слышу", "вижу", "понимаю", "рядом", "важно", "давай", "готова", "предлагаю"]

/-- `quality_ok`. -/
def quality_ok (s : String) : Bool :=
  if stop_search s then false
  else
    let L := s.data.length
    if L < 90 || L > 500 then false
    else if !(s.data.contains '?') then false
    else if !(searchAny EMPATH_pats (lowerData s)) then false
    else true

/-! ## Data model

The service keys every table by the single chat user, so the world record
below carries one app-state blob (the `app_state` object inside
`user_profile.facts`), one optional `psycho_profile` row and the
`dialog_events` log. -/

/-- The `psycho_profile` row.  The schema file with the column defaults is
not part of src/; the defaults below are modelled from the spec (§3, §4.5:
axis scores in [0,1] with neutral default 0.5) and are not relied upon by
any theorem. -/
structure Profile where
  ei : ℚ := 1/2
  sn : ℚ := 1/2
  tf : ℚ := 1/2
  jp : ℚ := 1/2
  confidence : ℚ := 1/10
  mbti : Option String := none
  anchors : List (String × String) := []
  deriving Repr, DecidableEq

/-- One `dialog_events` row.  The JSON `axes` payload is represented by the
fields the code ever reads back (`mi_phase` for the phase FSM and
`axes.subtopic`); the remaining payload (axis deltas, suggested intent,
score) is written but never read by any code path. -/
structure Event where
  role : String
  txt : String
  phase : String := ""
  emotion : String := ""
  relevance : Bool := false
  topic : Option String := none
  subtopic : Option String := none
  deriving Repr, DecidableEq

/-- The `app_state` blob (main.py lines 87-98).  `knoIdx` distinguishes a
missing key (`none`), a key explicitly set to JSON null (`some none`) and a
numeric index (`some (some k)`), because `st.get("kno_idx")` and
`st.get("kno_idx", 0)` treat the first two differently. -/
structure AppSt where
  knoIdx : Option (Option Nat) := none
  knoAnswers : List (String × Nat) := []
  knoDone : Bool := false
  topic : Option String := none
  subtopic : Option String := none
  topicStep : Nat := 0
  topicLocked : Bool := false
  topicReminded : Bool := false
  prevTopic : Option String := none
  prevSubtopic : Option String := none
  deriving Repr, DecidableEq

/-- Database state: the profile row and the append-only event log. -/
structure Db where
  profile : Option Profile := none
  events : List Event := []
  deriving Repr, DecidableEq

/-- World: app state plus database. -/
structure W where
  appst : AppSt := {}
  db : Db := {}
  deriving Repr, DecidableEq

/-! ## Short typology questionnaire (KNO, main.py lines 71-148) -/

/-- The fixed question list `KNO`. -/
def KNO : List (String × String) :=
  [("ei_q1", "Когда ты устаёшь — что помогает быстрее восстанавливаться: пообщаться с людьми 🌱 или побыть наедине 🌤?"),
   ("sn_q1", "Что тебе ближе: действовать по конкретным шагам и фактам 🎯 или ориентироваться на идею и смысл ✨?"),
   ("tf_q1", "Как ты чаще принимаешь решения: через логику и аргументы 🧠 или через чувства и внутренние ценности 💛?"),
   ("jp_q1", "Когда тебе спокойнее: когда всё чётко спланировано 📋 или когда есть свобода и импровизация 🌊?"),
   ("jp_q2", "Когда много задач: список заранее или пробовать и смотреть по ситуации?"),
   ("ei_q2", "Когда нужно разобраться: поговорить с кем-то или записать мысли для себя?")]

/-- `KNO_MAP`: which axis pair each question feeds (none = KeyError in the
source). -/
def KNO_MAP (k : String) : Option (Char × Char) :=
  if k = "ei_q1" ∨ k = "ei_q2" then some ('E', 'I')
  else if k = "sn_q1" then some ('S', 'N')
  else if k = "tf_q1" then some ('T', 'F')
  else if k = "jp_q1" ∨ k = "jp_q2" then some ('J', 'P')
  else none

/-- Membership of the (lower-cased, stripped) answer in a literal set. -/
def eqAny (t : List Char) (ws : List String) : Bool := ws.any (fun w => t = w.data)

/-- `pick_by_keywords` (main.py lines 110-125).  The Python fall-through
over the four mutually exclusive key prefixes is rendered as one if-chain. -/
def pick_by_keywords (key : String) (t : List Char) : Nat :=
  if eqAny t ["1", "первый", "первое", "первая"] then 1
  else if eqAny t ["2", "второй", "второе", "вторая"] then 2
  else if isPre "ei_".data key.data && searchAny ["наедин", "один", "тишин"] t then 2
  else if isPre "ei_".data key.data && searchAny ["люд", "общат", "встреч"] t then 1
  else if isPre "sn_".data key.data && searchAny ["факт", "конкрет", "шаг"] t then 1
  else if isPre "sn_".data key.data && searchAny ["смысл", "иде", "образ"] t then 2
  else if isPre "tf_".data key.data && searchAny ["логик", "рацион", "аргумент"] t then 1
  else if isPre "tf_".data key.data && searchAny ["чувств", "эмоци", "ценност"] t then 2
  else if isPre "jp_".data key.data && searchAny ["план", "распис", "контрол"] t then 1
  else if isPre "jp_".data key.data && searchAny ["свобод", "импров", "спонтан"] t then 2
  else 1

/-- Python dict assignment `answers[key] = choice` on an association list. -/
def updateAssoc (l : List (String × Nat)) (k : String) (v : Nat) : List (String × Nat) :=
  if l.any (fun p => p.1 = k) then l.map (fun p => if p.1 = k then (k, v) else p)
  else l ++ [(k, v)]

/-- Per-letter tallies of the questionnaire answers. -/
structure KnoCounts where
  cE : Nat := 0
  cI : Nat := 0
  cS : Nat := 0
  cN : Nat := 0
  cT : Nat := 0
  cF : Nat := 0
  cJ : Nat := 0
  cP : Nat := 0
  deriving Repr, DecidableEq

/-- Increment the tally of one letter. -/
def bumpLetter (c : KnoCounts) (L : Char) : KnoCounts :=
  if L = 'E' then { c with cE := c.cE + 1 }
  else if L = 'I' then { c with cI := c.cI + 1 }
  else if L = 'S' then { c with cS := c.cS + 1 }
  else if L = 'N' then { c with cN := c.cN + 1 }
  else if L = 'T' then { c with cT := c.cT + 1 }
  else if L = 'F' then { c with cF := c.cF + 1 }
  else if L = 'J' then { c with cJ := c.cJ + 1 }
  else { c with cP := c.cP + 1 }

/-- The tally loop of `kno_step` finalization (main.py lines 133-135);
`none` models the KeyError a foreign key would raise. -/
def knoCounts (answers : List (String × Nat)) : Option KnoCounts :=
  answers.foldl
    (fun acc kv =>
      acc.bind (fun c =>
        (KNO_MAP kv.1).map (fun ab => bumpLetter c (if kv.2 = 1 then ab.1 else ab.2))))
    (some {})

/-- `norm` (main.py line 136): `a / (s or 1)` for the tally share. -/
def knoShare (a b : Nat) : ℚ :=
  (a : ℚ) / (if a + b = 0 then 1 else ((a + b : Nat) : ℚ))

/-- The profile upsert of `kno_step` finalization (main.py lines 139-143):
insert a fresh row `(E, N, T, J, 0.4, NULL, [], NULL)`, or on conflict
update only the four axes, the confidence and the timestamp — the existing
`mbti_type` and `anchors` are untouched. -/
def knoUpsert (db : Db) (e n t j : ℚ) : Db :=
  match db.profile with
  | none =>
      let fresh : Profile := { ei := e, sn := n, tf := t, jp := j,
                               confidence := 2/5, mbti := none, anchors := [] }
      { db with profile := some fresh }
  | some p =>
      let upd : Profile := { p with ei := e, sn := n, tf := t, jp := j,
                                    confidence := 2/5 }
      { db with profile := some upd }

/-- `kno_step` (main.py lines 103-148).  The outer `none` models the
uncaught exceptions of the source (`KNO[None]` after re-entry, an index out
of range, or a KeyError in the tally); the inner option is the returned
next question (`none` = questionnaire finished). -/
def kno_step (w : W) (text : String) : Option (W × Option String) :=
  let st := w.appst
  let idx? : Option Nat :=
    match st.knoIdx with
    | none => some 0
    | some none => none
    | some (some k) => some k
  match idx? with
  | none => none
  | some idx =>
    match KNO.get? idx with
    | none => none
    | some kq =>
      let t := (stripData text.data).map pyLowerChar
      let choice := pick_by_keywords kq.1 t
      let answers := updateAssoc st.knoAnswers kq.1 choice
      let idx' := idx + 1
      if idx' ≥ KNO.length then
        match knoCounts answers with
        | none => none
        | some c =>
          let db' := knoUpsert w.db (knoShare c.cE c.cI) (knoShare c.cN c.cS)
                       (knoShare c.cT c.cF) (knoShare c.cJ c.cP)
          let st' := { st with knoDone := true, knoIdx := some none,
                               knoAnswers := answers }
          some ({ appst := st', db := db' }, none)
      else
        let st' := { st with knoIdx := some (some idx'), knoAnswers := answers }
        some ({ w with appst := st' }, (KNO.get? idx').map Prod.snd)

/-- `kno_start` (main.py lines 100-101). -/
def kno_start (w : W) : W :=
  { w with appst := { w.appst with knoIdx := some (some 0), knoAnswers := [] } }

/-! ## Profile updater (main.py lines 151-186) -/

/-- Axis delta dictionary: an absent key is `none`. -/
structure AxisDelta where
  ei : Option ℚ := none
  sn : Option ℚ := none
  tf : Option ℚ := none
  jp : Option ℚ := none
  deriving Repr, DecidableEq

/-- Python truthiness of the delta dict. -/
def deltaNonempty (d : AxisDelta) : Bool :=
  d.ei.isSome || d.sn.isSome || d.tf.isSome || d.jp.isSome

/-- `axes[k] = axes.get(k, 0) + v`. -/
def addAxis (o : Option ℚ) (v : ℚ) : Option ℚ := some (o.getD 0 + v)

/-- `classify_relevance` (main.py lines 151-162): returns the relevance
flag, the axis delta dict and the anchor records, in source order. -/
def classify_relevance (t : String) : Bool × AxisDelta × List (String × String) :=
  let tl := lowerData t
  let s0 : Bool × AxisDelta × List (String × String) := (false, {}, [])
  let s1 := if searchAny ["планир", "расписан", "контролир"] tl then
      (true, { s0.2.1 with jp := addAxis s0.2.1.jp (1/5) }, s0.2.2 ++ [("jp", "планирование")])
    else s0
  let s2 := if searchAny ["спонтан", "импровиз"] tl then
      (true, { s1.2.1 with jp := addAxis s1.2.1.jp (-(1/5)) }, s1.2.2 ++ [("jp", "спонтанность")])
    else s1
  let s3 := if searchAny ["встреч", "команда", "людей", "людям", "общать"] tl then
      (true, { s2.2.1 with ei := addAxis s2.2.1.ei (1/5) }, s2.2.2 ++ [("ei", "общительность")])
    else s2
  let s4 := if searchAny ["тишин", "один", "наедине"] tl then
      (true, { s3.2.1 with ei := addAxis s3.2.1.ei (-(1/5)) }, s3.2.2 ++ [("ei", "уединение")])
    else s3
  let s5 := if searchAny ["факты", "пошагов", "конкретн"] tl then
      (true, { s4.2.1 with sn := addAxis s4.2.1.sn (-(3/20)) }, s4.2.2 ++ [("sn", "факты")])
    else s4
  let s6 := if searchAny ["смысл", "образ", "идея"] tl then
      (true, { s5.2.1 with sn := addAxis s5.2.1.sn (3/20) }, s5.2.2 ++ [("sn", "смыслы")])
    else s5
  let s7 := if searchAny ["логик", "рацио", "сравн"] tl then
      (true, { s6.2.1 with tf := addAxis s6.2.1.tf (3/20) }, s6.2.2 ++ [("tf", "анализ")])
    else s6
  let s8 := if searchAny ["чувств", "гармони", "эмоци"] tl then
      (true, { s7.2.1 with tf := addAxis s7.2.1.tf (-(3/20)) }, s7.2.2 ++ [("tf", "эмпатия")])
    else s7
  s8

/-- `ewma` (main.py lines 164-165). -/
def ewma (v delta : ℚ) (alpha : ℚ := 1/10) : ℚ :=
  max 0 (min 1 (v + alpha * delta))

/-- `to_mbti` (main.py lines 167-168). -/
def to_mbti (ei sn tf jp : ℚ) : String :=
  (if ei ≥ 1/2 then "E" else "I") ++ (if sn ≥ 1/2 then "N" else "S") ++
  (if tf ≥ 1/2 then "T" else "F") ++ (if jp ≥ 1/2 then "J" else "P")

/-- Python `anc[-50:]`. -/
def lastN (n : Nat) (l : List (String × String)) : List (String × String) :=
  l.drop (l.length - n)

/-- The row transformation of `update_profile` (main.py lines 175-186). -/
def update_profile_row (p : Profile) (delta : AxisDelta)
    (anchors : List (String × String)) : Profile :=
  let ei := match delta.ei with | some d => ewma p.ei d | none => p.ei
  let sn := match delta.sn with | some d => ewma p.sn d | none => p.sn
  let tf := match delta.tf with | some d => ewma p.tf d | none => p.tf
  let jp := match delta.jp with | some d => ewma p.jp d | none => p.jp
  let conf := min (99/100) (p.confidence + (if deltaNonempty delta then 1/50 else 0))
  { ei := ei, sn := sn, tf := tf, jp := jp,
    confidence := conf,
    mbti := if conf ≥ 2/5 then some (to_mbti ei sn tf jp) else none,
    anchors := lastN 50 (p.anchors ++ anchors) }

/-- `update_profile` (main.py lines 170-186): the missing-row branch
inserts a row with the schema defaults (modelled by `Profile`'s default
field values, see there) and then updates it. -/
def update_profile (db : Db) (delta : AxisDelta)
    (anchors : List (String × String)) : Db :=
  { db with profile := some (update_profile_row (db.profile.getD {}) delta anchors) }

/-! ## Tone personalization and the open question (main.py lines 189-220) -/

/-- Communication style derived from the profile. -/
structure Style where
  tone : String
  detail : String
  mind : String
  plan : String
  deriving Repr, DecidableEq

/-- `comms_style` applied to a profile row (every row carries all four
axes, so the dict defaults of the source are never consulted). -/
def comms_style (ei sn tf jp : ℚ) : Style :=
  { tone := if ei ≥ 1/2 then "активный" else "спокойный",
    detail := if sn ≥ 1/2 then "смыслы" else "шаги",
    mind := if tf ≥ 1/2 then "анализ" else "чувства",
    plan := if jp ≥ 1/2 then "план" else "эксперимент" }

/-- `open_question` (main.py lines 205-214). -/
def open_question (phase : String) (style : Style) : String :=
  if phase = "engage" then "Что сейчас для тебя самое важное?"
  else if phase = "focus" then "На чём тебе хочется остановиться в первую очередь?"
  else if phase = "evoke" then
    if style.detail = "смыслы" then "Какой смысл ты видишь здесь?"
    else "Какие конкретные шаги ты видишь здесь?"
  else if phase = "plan" then
    if style.plan = "план" then "Какой маленький шаг ты готова запланировать на сегодня?"
    else "Какой лёгкий эксперимент попробуешь сначала?"
  else "Расскажи немного больше?"

/-- `personalized_reply` (main.py lines 216-220): missing profile rows fall
back to the neutral 0.5 defaults. -/
def personalized_reply (db : Db) (text : String) (phase : String) : String :=
  let st := match db.profile with
    | some p => comms_style p.ei p.sn p.tf p.jp
    | none => comms_style (1/2) (1/2) (1/2) (1/2)
  reflect_emotion text ++ open_question phase st

/-! ## Intent hierarchy (main.py lines 224-432)

Every regex of the table is an alternation of literal substrings; groups
such as `иск(у|ать) работу` or `вин(а|ю)` are expanded to their literal
alternatives, which preserves match positions. -/

/-- One sub-intent of the table. -/
structure SubIntent where
  key : String
  title : String
  pats : List String
  prompts : List String
  deriving Repr, DecidableEq

/-- One top-level intent of the table. -/
structure Intent where
  key : String
  title : String
  pats : List String
  children : List SubIntent
  deriving Repr, DecidableEq

/-- The `INTENTS` table, in source (dict insertion) order. -/
def INTENTS : List Intent :=
  [{ key := "work", title := "работа/карьера",
     pats := ["работ", "карьер", "коллег", "началь", "собеседован", "выгор", "проек", "дедлайн"],
     children :=
       [{ key := "job_search", title := "поиск работы",
          pats := ["резюм", "собесед", "hh.", "headhunt", "ваканси", "иску работу",
                   "искать работу", "найти работу"],
          prompts :=
            ["Если про поиск работы: на какую роль/уровень ты целишься и почему это подходит?",
             "Какие 3 вакансии ты выберешь сегодня и что отправишь по каждой?",
             "Когда запланируешь 2 коротких отклика (15 минут слоты)?"] },
        { key := "burnout", title := "выгорание/перегруз",
          pats := ["выгор", "перегруз", "не могу", "истощен", "истощена", "обессил"],
          prompts :=
            ["Если про перегруз: что больше всего истощает — задачи, люди, неопределённость?",
             "Что точно в твоей зоне контроля на этой неделе (1–2 маленьких шага восстановления)?",
             "Какой ритуал-опора добавим сегодня (сон/паузы/границы)?"] },
        { key := "conflict_boss", title := "конфликт с начальником/коллегой",
          pats := ["конфлик", "руковод", "началь", "токсич", "несправедл", "оценка", "фидбэк"],
          prompts :=
            ["Если про конфликт: о чём на самом деле спор — задача, способ, границы, уважение?",
             "Какая твоя потребность здесь и как её бережно обозначить?",
             "Какой безопасный шаг в коммуникации ты попробуешь в ближайшие 24 часа?"] },
        { key := "career_change", title := "смена сферы/рост",
          pats := ["смена карьер", "сменить карьер", "перейти в", "джун", "мидл", "сеньор",
                   "развитие", "повышени"],
          prompts :=
            ["Если про рост/смену: как выглядит желаемая роль через 6–12 месяцев?",
             "Какие 2-3 компетенции дадут 80% прогресса? Что выберешь первой?",
             "Какой микро-шаг сделаешь на этой неделе (курс, пет-проект, созвон)?"] }] },
   { key := "relations", title := "отношения",
     pats := ["отношен", "партнер", "муж", "жена", "парн", "девушк", "конфликт", "ссора",
              "довер", "развод", "расставан"],
     children :=
       [{ key := "dating", title := "поиск/знакомства",
          pats := ["знакомств", "тиндер", "tinder", "свидан", "познаком", "найти пар",
                   "как найти муж", "как найти жен"],
          prompts :=
            ["Если про знакомства: какой формат отношений тебе правда подходит сейчас?",
             "Какие 2 площадки попробуешь и какой шаг сделаешь сегодня?",
             "Что напишешь в первом сообщении — коротко и по-живому?"] },
        { key := "partner_conflict", title := "конфликт с партнёром",
          pats := ["ссор", "руга", "молчани", "игнор", "поссорились", "обида"],
          prompts :=
            ["Если про конфликт: что ты чувствуешь и какая потребность за этим стоит?",
             "Как звучит «Я-сообщение», чтобы обозначить границу без нападения?",
             "Какой один тёплый шаг к диалогу сделаешь сегодня?"] },
        { key := "trust_intimacy", title := "доверие/близость",
          pats := ["довер", "ревност", "близост", "тепл", "поддержк"],
          prompts :=
            ["Если про близость: какой момент доверия хочешь восстановить/усилить?",
             "Что ты готова сделать, чтобы партнёр чувствовал(а) себя в безопасности?",
             "Какую маленькую традицию/ритуал введём на этой неделе?"] }] },
   { key := "health", title := "здоровье/привычки",
     pats := ["здоров", "сон", "режим", "привыч", "спорт", "питани", "вес", "диет",
              "сахар", "алко"],
     children :=
       [{ key := "sleep", title := "сон/режим",
          pats := ["сон", "режим сна", "ложусь", "не сплю", "бессонниц"],
          prompts :=
            ["Если про сон: какой простой протокол попробуем 3 дня подряд (час сна/экран/ритуал)?",
             "Что мешает чаще всего и как это убрать/уменьшить?",
             "Когда ложишься сегодня и какой ритуал перед сном добавим?"] },
        { key := "nutrition", title := "питание/энергия",
          pats := ["питан", "переед", "сладк", "голод", "энерги"],
          prompts :=
            ["Если про питание: что хочешь изменить в первую очередь — частоту, состав, вечерние перекусы?",
             "Какой один устойчивый якорь питания введём (завтрак/вода/тарелка)?",
             "Как проверишь результат через неделю — по самочувствию/энергии?"] },
        { key := "habits", title := "полезные привычки",
          pats := ["привыч", "ритуал", "ежедневн", "трекер"],
          prompts :=
            ["Если про привычки: какую 1 мини-привычку возьмём на 5 минут в день?",
             "Какие триггер и награду зададим, чтобы запускалась проще?",
             "Когда первый запуск — сегодня?"] }] },
   { key := "mood", title := "самочувствие/настроение",
     pats := ["груст", "печаль", "тревог", "паник", "настроен", "стресс", "устал", "выгор"],
     children :=
       [{ key := "anxiety", title := "тревога/панические симптомы",
          pats := ["паник", "сердцебиен", "тревог", "навязч", "катастроф"],
          prompts :=
            ["Если про тревогу: что её усиливает — мысли, кофеин, перегруз, неопределённость?",
             "Выберем короткую практику на сегодня (дыхание 4-7-8/заземление/pause). Что откликается?",
             "Как отметишь эффект через час — шкала 0–10?"] },
        { key := "sadness", title := "грусть/апатия",
          pats := ["груст", "апат", "нет сил", "ничего не хочется"],
          prompts :=
            ["Если про грусть: что сейчас бережно поддержит — тепло, речь с другом, прогулка?",
             "Сделаем микро-дозу действия (5 минут), какую выберешь?",
             "Как поблагодаришь себя за маленький шаг сегодня?"] },
        { key := "selfesteem", title := "самопринятие/уверенность",
          pats := ["уверен", "самооцен", "стыд", "вина", "виню"],
          prompts :=
            ["Если про уверенность: в какой ситуации это особенно чувствуется?",
             "Какая твоя сильная сторона поможет прямо здесь?",
             "Какой небольшой шаг/тренировка уверенности уместна сегодня?"] }] },
   { key := "finance", title := "деньги/финансы",
     pats := ["финанс", "деньг", "бюджет", "кредит", "копи", "траты", "доход"],
     children :=
       [{ key := "debt", title := "долги/кредиты",
          pats := ["долг", "кредит", "выплат", "платеж", "переплат"],
          prompts :=
            ["Если про долги: какая сумма/сроки/ставки — соберём картину?",
             "Что можно оптимизировать на этой неделе (рефинанс/переговоры/заморозка трат)?",
             "Какой первый звонок/заявку сделаешь сегодня?"] },
        { key := "budget", title := "бюджет/учёт",
          pats := ["бюджет", "учет", "учёт", "трат", "расход", "таблиц", "кошелек"],
          prompts :=
            ["Если про бюджет: какую цель ставим на месяц (в процентах/сумме)?",
             "Какой инструмент выберем (таблица/приложение) и когда заведёшь категории?",
             "Когда сделаешь первый 10-минутный учёт за сегодня?"] },
        { key := "income", title := "доход/подработка",
          pats := ["доход", "подработ", "фриланс", "ставк", "повышен"],
          prompts :=
            ["Если про доход: какие 2-3 идеи роста кажутся реальными?",
             "Какой маленький тест выполним за 48 часов, чтобы проверить спрос?",
             "Как измеришь результат и что решишь по итогам?"] }] },
   { key := "productivity", title := "учёба/продуктивность",
     pats := ["учеб", "экзам", "курс", "учить", "продуктивн", "лен", "прокрастин",
              "фокус", "дедлайн"],
     children :=
       [{ key := "procrastination", title := "прокрастинация",
          pats := ["прокрастин", "тяну", "не могу начать", "откладыв"],
          prompts :=
            ["Если про прокрастинацию: что в задаче делает её тяжёлой — объём, страх ошибки, скука?",
             "Сделаем «микро-версию на 5 минут». С чего начнёшь прямо сегодня?",
             "Когда поставишь таймер и где займёшься — укажи время."] },
        { key := "focus", title := "фокус/режим",
          pats := ["фокус", "отрезки", "помодор", "режим работы", "контекст"],
          prompts :=
            ["Если про фокус: какой слот сегодня самый важный (30–50 минут)?",
             "Какие отвлекатели уберём на время слота?",
             "Что станет конкретным результатом слота?"] },
        { key := "exam", title := "экзамен/сессия",
          pats := ["экзам", "сесс", "зачет", "зачёт", "тест", "подготов"],
          prompts :=
            ["Если про экзамен: какие темы критичнее всего и на каком ты уровне по каждой (0–10)?",
             "Что выучишь до завтра — минимум, но с закреплением?",
             "Как проверишь себя (мини-тест/вопросы) и когда?"] }] }]

/-- `INTENT_THRESHOLD` (main.py line 434). -/
def INTENT_THRESHOLD : ℚ := 7/20

/-- One step of the sub-intent loop of `detect_intent` (main.py lines
449-454). -/
def childStep (tl : List Char) (cb : Option String × ℚ) (sub : SubIntent) :
    Option String × ℚ :=
  match findPos (sub.pats.map String.data) tl with
  | none => cb
  | some st =>
    let score : ℚ := 11/20 + (if st < 10 then 1/10 else 0)
    if score > cb.2 then (some sub.key, min (19/20) score) else cb

/-- The sub-intent loop of `detect_intent` (main.py lines 448-454). -/
def detectChild (tl : List Char) (children : List SubIntent) :
    Option String × ℚ :=
  children.foldl (childStep tl) (none, 0)

/-- The body of the `detect_intent` loop for one intent. -/
def intentStep (tl : List Char) (best : Option String × Option String × ℚ)
    (spec : Intent) : Option String × Option String × ℚ :=
  let baseScore : ℚ :=
    match findPos (spec.pats.map String.data) tl with
    | some st => 2/5 + (if st < 10 then 1/10 else 0)
    | none => 0
  let cb := detectChild tl spec.children
  if cb.2 > 0 then
    let score := max baseScore cb.2
    if score > best.2.2 then (some spec.key, cb.1, score) else best
  else if baseScore > 0 && baseScore > best.2.2 then (some spec.key, none, baseScore)
  else best

/-- `detect_intent` (main.py lines 436-463): best (intent, subintent,
score) over the table. -/
def detect_intent (text : String) : Option String × Option String × ℚ :=
  INTENTS.foldl (intentStep (lowerData text)) (none, none, 0)

/-- Lookup of an intent key in the table. -/
def findIntent (k : String) : Option Intent := INTENTS.find? (fun s => s.key = k)

/-- Lookup of a sub-intent key inside an intent. -/
def findChild (i : Intent) (k : String) : Option SubIntent :=
  i.children.find? (fun s => s.key = k)

/-- The generic fallback prompts of `topic_question` (main.py lines 470-474). -/
def genericPrompts : List String :=
  ["Сформулируй, пожалуйста, один главный вопрос или цель в этой теме.",
   "Что в твоей зоне контроля прямо сейчас?",
   "Какой маленький шаг сделаешь сегодня?"]

/-- `topic_question` (main.py lines 465-475); `none` models the KeyError
the source raises when a sub-topic is set but the intent key is foreign to
the table. -/
def topic_question (intent : String) (sub : Option String) (step : Nat) :
    Option String :=
  match sub with
  | none => some (genericPrompts.getD (min step (genericPrompts.length - 1)) "")
  | some sk =>
    match findIntent intent with
    | none => none
    | some ispec =>
      let prompts :=
        match findChild ispec sk with
        | some ch => ch.prompts
        | none => genericPrompts
      some (prompts.getD (min step (prompts.length - 1)) "")

/-- The title the webhook renders for a (topic, subtopic) pair
(`INTENTS[t]["children"][s]["title"]` / `INTENTS[t]["title"]`); `none`
models the KeyError of a foreign key. -/
def titleOf (tp : String) (sub : Option String) : Option String :=
  match findIntent tp with
  | none => none
  | some ispec =>
    match sub with
    | none => some ispec.title
    | some sk => (findChild ispec sk).map SubIntent.title

/-! ## User commands (main.py lines 477-502) -/

/-- A parsed user command. -/
inductive Cmd where
  | switch (lbl : String)
  | back
  | clear
  deriving Repr, DecidableEq

/-- The head alternatives of the switch regex, in alternation order (the
greedy optional group `(под-)?` is tried first). -/
def headMatch (t : List Char) : Option Nat :=
  if isPre "сменим под-тему на".data t then some "сменим под-тему на".data.length
  else if isPre "сменим тему на".data t then some "сменим тему на".data.length
  else if isPre "давай про".data t then some "давай про".data.length
  else if isPre "поговорим про".data t then some "поговорим про".data.length
  else if isPre "хочу про".data t then some "хочу про".data.length
  else none

/-- Membership of a character in the class `[а-яa-zё\s\-]`. -/
def classChar (c : Char) : Bool :=
  ('а' ≤ c && c ≤ 'я') || ('a' ≤ c && c ≤ 'z') || c = 'ё' || isPySpace c || c = '-'

/-- Matching `\s+([а-яa-zё\s\-]+)` after a switch head: the whitespace run
is consumed greedily; if no class character follows, the engine backtracks
one whitespace character into the capture (possible only when the run has
at least two characters, since `\s+` needs one). -/
def switchTail (rest : List Char) : Option (List Char) :=
  let ws := rest.takeWhile isPySpace
  if ws.isEmpty then none
  else
    let cls := (rest.drop ws.length).takeWhile classChar
    if !cls.isEmpty then some cls
    else if ws.length ≥ 2 then some [ws.getLastD ' ']
    else none

/-- Left-most search for the switch pattern, returning the raw capture. -/
def findSwitch : List Char → Option (List Char)
  | [] => none
  | c :: rest =>
    match headMatch (c :: rest) with
    | some L =>
      match switchTail (List.drop L (c :: rest)) with
      | some g => some g
      | none => findSwitch rest
    | none => findSwitch rest

/-- `normalize_command` (main.py lines 477-486). -/
def normalize_command (text : String) : Option Cmd :=
  let t := (stripData text.data).map pyLowerChar
  match findSwitch t with
  | some g => some (Cmd.switch ⟨stripData g⟩)
  | none =>
    if searchAny ["вернемся к", "вернёмся к"] t then some Cmd.back
    else if searchAny ["сброс темы", "отмени тему", "снять тему"] t then some Cmd.clear
    else none

/-- The title test of `resolve_to_intent`: `lab in title or any(w and w in
title for w in lab.split())`. -/
def labHits (lab title : List Char) : Bool :=
  hasSub lab title || (splitWs lab).any (fun wrd => !wrd.isEmpty && hasSub wrd title)

/-- `resolve_to_intent` (main.py lines 488-502). -/
def resolve_to_intent (label : String) : Option String × Option String :=
  let lab := (stripData label.data).map pyLowerChar
  let subHit := INTENTS.findSome? (fun ispec =>
    ispec.children.findSome? (fun ch =>
      if labHits lab (lowerData ch.title) then some (ispec.key, ch.key) else none))
  match subHit with
  | some ik_sk => (some ik_sk.1, some ik_sk.2)
  | none =>
    match INTENTS.findSome? (fun ispec =>
        if labHits lab (lowerData ispec.title) then some ispec.key else none) with
    | some ik => (some ik, none)
    | none => (none, none)

/-! ## Webhook orchestrator (main.py lines 519-689)

The handler is modelled as a function from the world and the inbound
message text to an optional result; `none` models an uncaught exception
(the source would answer HTTP 500 without completing any further write).
The trace records which processing stages ran, in order. -/

/-- Processing stages of one webhook invocation. -/
inductive Stage where
  | crisis
  | stop
  | command
  | onboarding
  | profileUpdate
  | intentDetect
  | topicRedirect
  | topicReply
  | qualityGate
  | freeReply
  deriving Repr, DecidableEq

/-- Result of one webhook invocation: new world, outbound sends, trace. -/
structure Res where
  w : W
  sends : List String
  trace : List Stage
  deriving Repr, DecidableEq

/-- Append one row to `dialog_events`. -/
def addEvent (db : Db) (e : Event) : Db := { db with events := db.events ++ [e] }

/-- The fixed crisis-safety reply (main.py lines 533-534). -/
def crisisReply : String :=
  "Я рядом и слышу твою боль. Если нужна срочная поддержка — напиши близким или обратись в горячую линию. Что сейчас было бы самым поддерживающим?"

/-- The fixed sensitive-topic deflection reply (main.py line 539). -/
def stopReply : String :=
  "Давай оставим чувствительные темы за рамками. О чём тебе важнее поговорить сейчас?"

/-- The redirect reply of the topic controller (main.py lines 641-642). -/
def redirect_reply (title : String) : String :=
  "Слышу тебя 💛 Кажется, мы чуть ушли в сторону. Давай сначала завершим разговор о «" ++ title ++ "». Если захочешь сменить под-тему — скажи «сменим под-тему на …»."

/-- `going_off` (main.py lines 632-633), with Python truthiness of the
optional strings rendered by the option matches. -/
def going_off (ct cs i s : Option String) : Bool :=
  (match ct, i with
   | some c, some ii => decide (ii ≠ c)
   | _, _ => false) ||
  (match cs, s with
   | some c, some ss => decide (ss ≠ c)
   | _, _ => false)

/-- The quality-gate fallback of the locked-topic branch (main.py line
656): the draft stripped of the emotion-reflection prefix. -/
def topic_fallback (title lead : String) : String :=
  "Продолжим «" ++ title ++ "». " ++ lead

/-- The draft of the locked-topic branch (main.py line 653). -/
def topic_draft (text title lead : String) : String :=
  reflect_emotion text ++ topic_fallback title lead

/-- The locked-topic reply after the quality gate (main.py lines 653-656). -/
def topic_final (text title lead : String) : String :=
  if quality_ok (topic_draft text title lead) then topic_draft text title lead
  else topic_fallback title lead

/-- The fixed generic fallback of the free-dialogue branch (main.py line
680). -/
def FREE_FALLBACK : String := "Слышу тебя. Что здесь для тебя главное?"

/-- The free-dialogue reply after the quality gate (main.py lines 679-680). -/
def free_final (draft : String) : String :=
  if quality_ok draft then draft else FREE_FALLBACK

/-- `text.lower() in ("/start", "старт", "начать")`. -/
def isStartText (tl : List Char) : Bool :=
  tl = "/start".data || tl = "старт".data || tl = "начать".data

/-- The greeting sent when the questionnaire starts (main.py lines
581-583). -/
def introText : String :=
  "Привет 🌿 Я Анима — твой личный психологический ассистент. Помогаю навести ясность, снизить стресс и наметить шаги вперёд. Разговоры конфиденциальны, никакого спама — только поддержка 💛\n\nПоехали? Отвечай цифрой 1 или 2, можно своими словами 🙂"

/-- The command branch of the webhook (main.py lines 544-574). -/
def handleCommand (w : W) (cmd : Cmd) : Option Res :=
  let st := w.appst
  match cmd with
  | Cmd.switch lab =>
    match resolve_to_intent lab with
    | (none, none) =>
      some ⟨w, ["Уточни, пожалуйста: работа, отношения, здоровье, настроение, финансы или учёба/продуктивность (можно с под-темой)."], [Stage.command]⟩
    | (none, some _) => none
    | (some ik, sub) =>
      let st' := { st with topic := some ik, subtopic := sub, topicStep := 0,
                           topicLocked := true, prevTopic := st.topic,
                           prevSubtopic := st.subtopic }
      match titleOf ik sub, topic_question ik sub 0 with
      | some title, some q0 =>
        let reply := "Окей, переключаюсь на «" ++ title ++ "». " ++ q0
        let ev : Event := { role := "assistant", txt := reply, phase := "focus",
                            topic := some ik, subtopic := sub }
        some ⟨{ appst := st', db := addEvent w.db ev }, [reply], [Stage.command]⟩
      | _, _ => none
  | Cmd.back =>
    match st.prevTopic with
    | some bt =>
      let bs := st.prevSubtopic
      let st' := { st with topic := some bt, subtopic := bs, topicStep := 0,
                           topicLocked := true, prevTopic := none,
                           prevSubtopic := none }
      match titleOf bt bs, topic_question bt bs 0 with
      | some title, some q0 =>
        let reply := "Вернёмся к «" ++ title ++ "». " ++ q0
        let ev : Event := { role := "assistant", txt := reply, phase := "focus",
                            topic := some bt, subtopic := bs }
        some ⟨{ appst := st', db := addEvent w.db ev }, [reply], [Stage.command]⟩
      | _, _ => none
    | none =>
      some ⟨w, ["Пока не к чему возвращаться — тема не менялась. О чём продолжим?"], [Stage.command]⟩
  | Cmd.clear =>
    let st' := { st with topicLocked := false }
    some ⟨{ w with appst := st' }, ["Сняла фиксацию темы. Выбирай новую — «давай про …»."], [Stage.command]⟩

/-- The onboarding branch of the webhook (main.py lines 576-603). -/
def handleOnboarding (w : W) (text : String) : Option Res :=
  let st := w.appst
  if (st.knoIdx = none ∨ st.knoIdx = some none) && !st.knoDone then
    let w' := kno_start w
    let firstQ := (KNO.getD 0 ("", "")).2
    let ev : Event := { role := "assistant", txt := introText, phase := "engage" }
    some ⟨{ w' with db := addEvent w'.db ev }, [introText ++ "\n\n" ++ firstQ],
          [Stage.onboarding]⟩
  else
    match kno_step w text with
    | none => none
    | some (w', some nxt) =>
      let ev : Event := { role := "assistant", txt := nxt, phase := "engage" }
      some ⟨{ w' with db := addEvent w'.db ev },
            [nxt ++ "\n\nОтветь 1 или 2, можно словами."], [Stage.onboarding]⟩
    | some (w', none) =>
      match w'.db.profile with
      | none => none
      | some prof =>
        -- `int((prof["confidence"] or 0) * 100)`: the value is non-negative
        -- here, so Python's truncation toward zero is the floor.
        let confPct : ℤ := Rat.floor (prof.confidence * 100)
        let mbtiTxt := prof.mbti.getD "черновой профиль уточнится"
        let reply := "Спасибо, я лучше понимаю, как с тобой говорить 💛\nПока это черновой профиль: " ++ mbtiTxt ++ ". Точность будет расти по ходу диалога (≈" ++ toString confPct ++ "%).\n\nРасскажи коротко — с чем хочешь сегодня поработать или о чём поговорить?"
        let ev : Event := { role := "assistant", txt := reply, phase := "engage" }
        let st2 := { w'.appst with topic := none, subtopic := none, topicStep := 0,
                                   topicLocked := false }
        some ⟨{ appst := st2, db := addEvent w'.db ev }, [reply], [Stage.onboarding]⟩

/-- The topic/free-dialogue section of the webhook (main.py lines 605-689,
after the profile update), with `tr0` the trace accumulated so far. -/
def handleTopic (w : W) (text : String) (emo : String) (rel : Bool)
    (tr0 : List Stage) : Option Res :=
  let st := w.appst
  let di := detect_intent text
  let intent := di.1
  let sub := di.2.1
  let score := di.2.2
  let adopt : Bool := !st.topicLocked && intent.isSome && decide (score ≥ INTENT_THRESHOLD)
  let ct := if adopt then intent else st.topic
  let cs := if adopt then sub else st.subtopic
  let step := if adopt then 0 else st.topicStep
  let st1 := if adopt then { st with topic := intent, subtopic := sub, topicStep := 0 }
             else st
  let lastPhase := match w.db.events.getLast? with
    | some e => e.phase
    | none => "engage"
  match ct with
  | some tp =>
    if going_off ct cs intent sub && !st.topicReminded then
      match titleOf tp cs with
      | none => none
      | some title =>
        let reply := redirect_reply title
        let ev : Event := { role := "assistant", txt := reply, phase := "focus",
                            topic := some tp, subtopic := cs }
        let st2 := { st1 with topicReminded := true }
        some ⟨{ appst := st2, db := addEvent w.db ev }, [reply],
              tr0 ++ [Stage.topicRedirect]⟩
    else
      let st2 := { st1 with topicReminded := false }
      let phase := choose_phase lastPhase emo text
      match titleOf tp cs, topic_question tp cs step with
      | some title, some lead =>
        let draft := topic_final text title lead
        let evU : Event := { role := "user", txt := text, phase := phase,
                             emotion := emo, relevance := rel, topic := some tp,
                             subtopic := cs }
        let evA : Event := { role := "assistant", txt := draft, phase := phase,
                             emotion := emo, relevance := rel, topic := some tp,
                             subtopic := cs }
        let st3 := { st2 with topicStep := step + 1 }
        some ⟨{ appst := st3, db := addEvent (addEvent w.db evU) evA }, [draft],
              tr0 ++ [Stage.qualityGate, Stage.topicReply]⟩
      | _, _ => none
  | none =>
    let phase := choose_phase lastPhase emo text
    if intent.isSome && decide (score ≥ INTENT_THRESHOLD) then
      match intent with
      | none => none
      | some ik =>
        match titleOf ik sub, topic_question ik sub 0 with
        | some title, some q0 =>
          let draft1 := reflect_emotion text ++ "Похоже, речь про «" ++ title ++ "». Начнём с простого: " ++ q0 ++ " Если это не то — скажи «сменим под-тему на …»."
          let st2 := { st1 with topic := some ik, subtopic := sub, topicStep := 1 }
          let final := free_final draft1
          let evU : Event := { role := "user", txt := text, phase := phase,
                               emotion := emo, relevance := rel }
          let evA : Event := { role := "assistant", txt := final, phase := phase,
                               emotion := emo, relevance := rel, subtopic := sub }
          some ⟨{ appst := st2, db := addEvent (addEvent w.db evU) evA }, [final],
                tr0 ++ [Stage.qualityGate, Stage.freeReply]⟩
        | _, _ => none
    else
      let final := free_final (personalized_reply w.db text phase)
      let evU : Event := { role := "user", txt := text, phase := phase,
                           emotion := emo, relevance := rel }
      let evA : Event := { role := "assistant", txt := final, phase := phase,
                           emotion := emo, relevance := rel, subtopic := sub }
      some ⟨{ appst := st1, db := addEvent (addEvent w.db evU) evA }, [final],
            tr0 ++ [Stage.qualityGate, Stage.freeReply]⟩

/-- The webhook handler (main.py lines 519-689) for one inbound message
with non-empty `message` field; the chat/user id plays no role in the
single-user model. -/
def webhook (w : W) (raw : String) : Option Res :=
  let text := pyStrip raw
  if crisis_detect text then
    let ev : Event := { role := "assistant", txt := crisisReply, phase := "support",
                        emotion := "tense", relevance := false, topic := some "mood",
                        subtopic := some "anxiety" }
    some ⟨{ w with db := addEvent w.db ev }, [crisisReply], [Stage.crisis]⟩
  else if stop_search text then
    let ev : Event := { role := "assistant", txt := stopReply, phase := "engage",
                        emotion := "neutral", relevance := false }
    some ⟨{ w with db := addEvent w.db ev }, [stopReply], [Stage.stop]⟩
  else
    match normalize_command text with
    | some cmd => handleCommand w cmd
    | none =>
      if isStartText (lowerData text) || !w.appst.knoDone then
        handleOnboarding w text
      else
        let emo := detect_emotion text
        let cra := classify_relevance text
        let w1 : W :=
          { w with db := if cra.1 then update_profile w.db cra.2.1 cra.2.2 else w.db }
        let tr0 := (if cra.1 then [Stage.profileUpdate] else []) ++ [Stage.intentDetect]
        handleTopic w1 text emo cra.1 tr0

/-! ## The idempotent webhook of src/api/routes/telegram.py

This handler depends on the module `api/services/dialogue`, which is not
under src/ (only its import list, its call sites and `api/db.py` are).
The functions taken from that module are modelled from the spec and marked
as such; everything visible in `routes/telegram.py` and `db.py` themselves
is embedded from the source. -/

namespace RT

/-- Inbound Telegram message. -/
structure Msg where
  text : String
  deriving Repr, DecidableEq

/-- Inbound update: optional identifier and optional message. -/
structure Upd where
  updateId : Option Int := none
  message : Option Msg := none
  deriving Repr, DecidableEq

/-- State of the routes webhook: the `processed_updates` table, the
dialogue app-state fields the handler touches, and the accumulated
DialogEvent insertions and outbound sends. -/
structure St where
  processed : List Int := []
  humorOn : Bool := false
  name : Option String := none
  introDone : Bool := false
  knoDone : Bool := false
  knoIdx : Option Nat := none
  events : List (String × String) := []
  sends : List String := []
  deriving Repr, DecidableEq

/-- Modelled from the spec: `kno_register`/`kno_next` of
`api/services/dialogue` are absent from src/.  Per §4.2 the questionnaire
advances one index per message and finalizes after the last of the six
questions; the handler (routes/telegram.py lines 143-161) sends either the
summary or the next question and logs it.  The questionnaire content is
the one embedded from api/main.py. -/
def rtKno (s : St) (_text : String) : St :=
  let idx := s.knoIdx.getD 0
  if idx + 1 ≥ Anima.KNO.length then
    let summary := "Спасибо, я лучше понимаю, как с тобой говорить 💛\nУверенность 40%\nПока это черновой профиль. Он будет уточняться по ходу диалога.\n\nРасскажи коротко — с чем хочешь сегодня поработать или о чём поговорить?"
    { s with knoDone := true, knoIdx := none,
             sends := s.sends ++ [summary],
             events := s.events ++ [("assistant", summary)] }
  else
    let nxt := (Anima.KNO.getD (idx + 1) ("", "")).2
    { s with knoIdx := some (idx + 1),
             sends := s.sends ++ [nxt],
             events := s.events ++ [("assistant", nxt)] }

/-- Modelled from the spec: the free-dialogue composition
(`build_reply`, `quality_score`, `compose_menu`, `not_duplicate` of
`api/services/dialogue`) is absent from src/.  Per §4.5/§4.6 it produces
one reply string; the handler itself (routes/telegram.py lines 163-189)
sends it and logs the user and the assistant turns, which is all that
matters to the claims settled here. -/
def rtFree (s : St) (text : String) : St :=
  let draft := "Слышу тебя. Что здесь для тебя главное?"
  { s with sends := s.sends ++ [draft],
           events := s.events ++ [("user", text), ("assistant", draft)] }

/-- The fixed crisis-safety reply of the routes handler
(routes/telegram.py lines 93-97). -/
def rtCrisisReply : String :=
  "Я рядом и слышу твою боль. Если нужна поддержка прямо сейчас — обратись к близким или в службу помощи. Что сейчас было бы самым бережным для тебя?"

/-- The message-processing body of the routes webhook
(routes/telegram.py lines 61-189), after the idempotency guard. -/
def process (s : St) (msg? : Option Msg) : St :=
  match msg? with
  | none => s
  | some m =>
    let text := Anima.pyStrip m.text
    let tlow := Anima.lowerData text
    if Anima.isPre "/humor".data tlow then
      let onB := ["on", "вкл", "да", "true"].any (fun wd => Anima.hasSub wd.data tlow)
      { s with humorOn := onB,
               sends := s.sends ++ [if onB then "Юмор включён 😊" else "Юмор выключен 👍"] }
    else
      let s := if Anima.wordMatch "пошути" tlow ||
                  Anima.searchAny ["немного юмора", "чуть иронии"] tlow then
                 { s with humorOn := true }
               else s
      if Anima.crisis_detect text then
        { s with sends := s.sends ++ [rtCrisisReply],
                 events := s.events ++ [("assistant", rtCrisisReply)] }
      else if Anima.stop_search text then
        let reply := "Давай оставим чувствительные темы за рамками. О чём тебе важнее поговорить сейчас?"
        { s with sends := s.sends ++ [reply],
                 events := s.events ++ [("assistant", reply)] }
      else if tlow = "/start".data ∨ tlow = "start".data then
        let greet := "Привет 🌿 Я Анима — твой личный психологический ассистент. Я помогаю навести ясность, снизить стресс и наметить шаги вперёд. Наши разговоры конфиденциальны, никакого спама — только поддержка 💛\n\nКак мне к тебе обращаться?"
        { s with introDone := false, name := none, knoIdx := none, knoDone := false,
                 sends := s.sends ++ [greet],
                 events := s.events ++ [("assistant", greet)] }
      else if !s.introDone then
        match s.name with
        | none =>
          if text.data.length ≤ 40 && !(text.data.any Char.isDigit) then
            { s with name := some text,
                     sends := s.sends ++
                       ["Рада знакомству, " ++ text ++ "! ✨",
                        "Как ты сейчас? Выбери слово: спокойно, напряжённо, растерянно — или опиши по-своему."] }
          else
            { s with sends := s.sends ++ ["Как мне к тебе обращаться? Коротко — одним словом 🙂"] }
        | some _ =>
          { s with introDone := true, knoIdx := some 0,
                   sends := s.sends ++
                     ["Спасибо! Начнём с короткой анкеты (6 вопросов). Отвечай 1 или 2, можно словами.",
                      (Anima.KNO.getD 0 ("", "")).2] }
      else if !s.knoDone then rtKno s text
      else rtFree s text

/-- The routes webhook (routes/telegram.py lines 43-189): the idempotency
guard is modelled from the spec (§6) and `api/db.py` lines 50-55
(`idempotency_guard` of the absent `api/services/dialogue` wraps
`mark_update_processed`, an insert-or-ignore on `processed_updates` keyed
by `update_id`): an update whose identifier was already recorded is
acknowledged as success and dropped; an update without an identifier skips
the check. -/
def rtWebhook (s : St) (u : Upd) : St :=
  match u.updateId with
  | some n =>
    if n ∈ s.processed then s
    else process { s with processed := n :: s.processed } u.message
  | none => process s u.message

end RT

/-! ## Derived runs and invariant helpers -/

/-- Fold of `kno_step` over a list of answer texts. -/
def kno_run : W → List String → Option W
  | w, [] => some w
  | w, t :: ts =>
    match kno_step w t with
    | none => none
    | some wq => kno_run wq.1 ts

/-- The normalized answer choice `kno_step` records for a question key and
an answer text. -/
def knoChoice (key : String) (t : String) : Nat :=
  pick_by_keywords key ((stripData t.data).map pyLowerChar)

/-- Tally contribution of one answer to the first letter of its axis. -/
def cnt1 (k : String) (t : String) : ℕ := if knoChoice k t = 1 then 1 else 0

/-- Tally contribution of one answer to the second letter of its axis. -/
def cnt2 (k : String) (t : String) : ℕ := if knoChoice k t = 1 then 0 else 1

/-- Fold of `update_profile_row` over a sequence of updates. -/
def update_profile_fold (p : Profile)
    (us : List (AxisDelta × List (String × String))) : Profile :=
  us.foldl (fun q u => update_profile_row q u.1 u.2) p

/-- All four axis scores lie in the unit interval. -/
def axesIn01 (p : Profile) : Prop :=
  0 ≤ p.ei ∧ p.ei ≤ 1 ∧ 0 ≤ p.sn ∧ p.sn ≤ 1 ∧
  0 ≤ p.tf ∧ p.tf ≤ 1 ∧ 0 ≤ p.jp ∧ p.jp ≤ 1

theorem ewma_mem_unit (v d a : ℚ) : 0 ≤ ewma v d a ∧ ewma v d a ≤ 1 := by
  unfold ewma
  constructor
  · exact le_max_left 0 _
  · exact max_le (by norm_num) (min_le_left 1 _)

theorem opt_axis_mem (v : ℚ) (o : Option ℚ) (h0 : 0 ≤ v) (h1 : v ≤ 1) :
    0 ≤ (match o with | some x => ewma v x | none => v) ∧
    (match o with | some x => ewma v x | none => v) ≤ 1 := by
  cases o with
  | none => exact ⟨h0, h1⟩
  | some x => exact ewma_mem_unit v x _

theorem update_row_axes_mem (p : Profile) (d : AxisDelta)
    (a : List (String × String)) (h : axesIn01 p) :
    axesIn01 (update_profile_row p d a) := by
  obtain ⟨h1, h2, h3, h4, h5, h6, h7, h8⟩ := h
  have hei := opt_axis_mem p.ei d.ei h1 h2
  have hsn := opt_axis_mem p.sn d.sn h3 h4
  have htf := opt_axis_mem p.tf d.tf h5 h6
  have hjp := opt_axis_mem p.jp d.jp h7 h8
  exact ⟨hei.1, hei.2, hsn.1, hsn.2, htf.1, htf.2, hjp.1, hjp.2⟩

theorem update_row_conf_bounds (p : Profile) (d : AxisDelta)
    (a : List (String × String)) (h : p.confidence ≤ 99/100) :
    p.confidence ≤ (update_profile_row p d a).confidence ∧
    (update_profile_row p d a).confidence ≤ 99/100 := by
  unfold update_profile_row
  dsimp only
  constructor
  · refine le_min h ?_
    split <;> linarith
  · exact min_le_left _ _

theorem update_fold_conf (p : Profile)
    (us : List (AxisDelta × List (String × String))) (h : p.confidence ≤ 99/100) :
    p.confidence ≤ (update_profile_fold p us).confidence ∧
    (update_profile_fold p us).confidence ≤ 99/100 := by
  induction us generalizing p with
  | nil => exact ⟨le_refl _, h⟩
  | cons u us ih =>
    have hstep := update_row_conf_bounds p u.1 u.2 h
    have hrec := ih (update_profile_row p u.1 u.2) hstep.2
    exact ⟨le_trans hstep.1 hrec.1, hrec.2⟩

theorem update_fold_axes (p : Profile)
    (us : List (AxisDelta × List (String × String))) (h : axesIn01 p) :
    axesIn01 (update_profile_fold p us) := by
  induction us generalizing p with
  | nil => exact h
  | cons u us ih => exact ih _ (update_row_axes_mem p u.1 u.2 h)

/-- Claim C5: each `update_profile` call with a non-empty delta map sets
confidence to `min 0.99 (old + 0.02)` (an increase of exactly 0.02 until
the 0.99 cap), a call with an empty delta map leaves it unchanged, and
across every sequence of updates the confidence never decreases and stays
at most 0.99 (the profile invariant). -/
theorem c5_confidence_monotone :
    (∀ (p : Profile) (d : AxisDelta) (a : List (String × String)),
        deltaNonempty d = true →
        (update_profile_row p d a).confidence = min (99/100) (p.confidence + 1/50)) ∧
    (∀ (p : Profile) (d : AxisDelta) (a : List (String × String)),
        deltaNonempty d = false → p.confidence ≤ 99/100 →
        (update_profile_row p d a).confidence = p.confidence) ∧
    (∀ (p : Profile) (us : List (AxisDelta × List (String × String))),
        p.confidence ≤ 99/100 →
        p.confidence ≤ (update_profile_fold p us).confidence ∧
        (update_profile_fold p us).confidence ≤ 99/100) := by
  refine ⟨?_, ?_, ?_⟩
  · intro p d a h
    unfold update_profile_row
    simp [h]
  · intro p d a h hle
    unfold update_profile_row
    simp [h, min_eq_right hle]
  · intro p us h
    exact update_fold_conf p us h

/-- Witness for C5 at a concrete profile and a one-update sequence. -/
theorem c5_confidence_monotone_witness :
    deltaNonempty { ei := some 1 } = true ∧
    (update_profile_row { confidence := 2/5 } { ei := some 1 } []).confidence =
      min (99/100) (2/5 + 1/50) ∧
    ((2/5 : ℚ) ≤ (update_profile_fold { confidence := 2/5 }
        [({ ei := some 1 }, []), ({}, [])]).confidence) :=
  ⟨by decide,
   c5_confidence_monotone.1 { confidence := 2/5 } { ei := some 1 } [] (by decide),
   (c5_confidence_monotone.2.2 { confidence := 2/5 }
      [({ ei := some 1 }, []), ({}, [])] (by norm_num)).1⟩

/-- Claim C6: each `update_profile` call applies
`new = clamp01 (old + 0.1 * delta)` to exactly the axes present in the
delta map, leaves absent axes unchanged, and for every sequence of deltas
(including extreme repeated ones) all four axis scores stay in [0, 1]
after every update. -/
theorem c6_axes_clamped :
    (∀ (p : Profile) (d : AxisDelta) (a : List (String × String)),
        (update_profile_row p d a).ei =
          (match d.ei with | some x => ewma p.ei x | none => p.ei) ∧
        (update_profile_row p d a).sn =
          (match d.sn with | some x => ewma p.sn x | none => p.sn) ∧
        (update_profile_row p d a).tf =
          (match d.tf with | some x => ewma p.tf x | none => p.tf) ∧
        (update_profile_row p d a).jp =
          (match d.jp with | some x => ewma p.jp x | none => p.jp)) ∧
    (∀ v x : ℚ, ewma v x = max 0 (min 1 (v + (1/10) * x))) ∧
    (∀ (p : Profile) (us : List (AxisDelta × List (String × String))),
        axesIn01 p → axesIn01 (update_profile_fold p us)) := by
  refine ⟨?_, ?_, ?_⟩
  · intro p d a
    unfold update_profile_row
    exact ⟨rfl, rfl, rfl, rfl⟩
  · intro v x
    rfl
  · intro p us h
    exact update_fold_axes p us h

/-- Witness for C6: extreme repeated deltas keep the axes in [0, 1]. -/
theorem c6_axes_clamped_witness :
    axesIn01 (update_profile_fold {}
      [({ ei := some 100, sn := some (-100) }, []),
       ({ ei := some 100, sn := some (-100) }, []),
       ({ tf := some (-100), jp := some 100 }, [])]) :=
  c6_axes_clamped.2.2 {}
    [({ ei := some 100, sn := some (-100) }, []),
     ({ ei := some 100, sn := some (-100) }, []),
     ({ tf := some (-100), jp := some 100 }, [])]
    (by norm_num [axesIn01])

/-- Claim C9: at confidence exactly 0.4 the stored type label depends on
the write path — the onboarding finalization upsert writes a null
`mbti_type` whatever the computed axis scores when it creates the row
(the only reachable case: `update_profile` runs only after onboarding has
completed), whereas an `update_profile` call stores the four-letter label
`to_mbti` (one letter per axis by the inclusive `≥ 0.5` rule) exactly when
the resulting confidence is `≥ 0.4` (inclusive), and null when it is below
0.4. -/
theorem c9_mbti_write_paths :
    (∀ (db : Db) (e n t j : ℚ), db.profile = none →
        (knoUpsert db e n t j).profile =
          some { ei := e, sn := n, tf := t, jp := j, confidence := 2/5,
                 mbti := none, anchors := [] }) ∧
    (∀ (p : Profile) (d : AxisDelta) (a : List (String × String)),
        (2/5 : ℚ) ≤ (update_profile_row p d a).confidence →
        (update_profile_row p d a).mbti =
          some (to_mbti (update_profile_row p d a).ei (update_profile_row p d a).sn
            (update_profile_row p d a).tf (update_profile_row p d a).jp)) ∧
    (∀ (p : Profile) (d : AxisDelta) (a : List (String × String)),
        (update_profile_row p d a).confidence < 2/5 →
        (update_profile_row p d a).mbti = none) ∧
    (∀ a b c d : ℚ, (to_mbti a b c d).length = 4) := by
  refine ⟨?_, ?_, ?_, ?_⟩
  · intro db e n t j h
    unfold knoUpsert
    rw [h]
  · intro p d a h
    have : (update_profile_row p d a).confidence ≥ 2/5 := h
    unfold update_profile_row at this ⊢
    dsimp only at this ⊢
    rw [if_pos this]
  · intro p d a h
    have : ¬ ((update_profile_row p d a).confidence ≥ 2/5) := not_le.mpr h
    unfold update_profile_row at this ⊢
    dsimp only at this ⊢
    rw [if_neg this]
  · intro a b c d
    unfold to_mbti
    split_ifs <;> rfl

/-- Witness for C9 at concrete inputs on both sides of the 0.4 boundary. -/
theorem c9_mbti_write_paths_witness :
    (knoUpsert { profile := none, events := [] } 1 1 1 (1/2)).profile =
      some { ei := 1, sn := 1, tf := 1, jp := 1/2, confidence := 2/5,
             mbti := none, anchors := [] } ∧
    (update_profile_row { confidence := 19/50 } { ei := some 1 } []).mbti =
      some (to_mbti (update_profile_row { confidence := 19/50 } { ei := some 1 } []).ei
        (update_profile_row { confidence := 19/50 } { ei := some 1 } []).sn
        (update_profile_row { confidence := 19/50 } { ei := some 1 } []).tf
        (update_profile_row { confidence := 19/50 } { ei := some 1 } []).jp) ∧
    (update_profile_row { confidence := 1/10 } { ei := some 1 } []).mbti = none :=
  ⟨c9_mbti_write_paths.1 { profile := none, events := [] } 1 1 1 (1/2) rfl,
   c9_mbti_write_paths.2.1 { confidence := 19/50 } { ei := some 1 } [] (by norm_num [update_profile_row, deltaNonempty]),
   c9_mbti_write_paths.2.2.1 { confidence := 1/10 } { ei := some 1 } [] (by norm_num [update_profile_row, deltaNonempty])⟩

/-! ### Intent score lower bound (claim C10) -/

/-- One `childStep` keeps the invariant: the stored score is zero or at
least 0.55. -/
theorem childStep_inv (tl : List Char) (cb : Option String × ℚ)
    (sub : SubIntent) (h : cb.2 = 0 ∨ 11/20 ≤ cb.2) :
    (childStep tl cb sub).2 = 0 ∨ 11/20 ≤ (childStep tl cb sub).2 := by
  unfold childStep
  cases hf : findPos (sub.pats.map String.data) tl with
  | none => exact h
  | some st =>
    dsimp only
    set sc : ℚ := 11/20 + (if st < 10 then (1:ℚ)/10 else 0) with hsc
    have hs : (11/20 : ℚ) ≤ sc := by
      rw [hsc]
      split <;> norm_num
    split
    · right
      exact le_min (by norm_num) hs
    · exact h

/-- Invariant of the sub-intent fold. -/
theorem detectChild_ge (tl : List Char) (children : List SubIntent) :
    (detectChild tl children).2 = 0 ∨ 11/20 ≤ (detectChild tl children).2 := by
  unfold detectChild
  have : ∀ (l : List SubIntent) (cb : Option String × ℚ),
      (cb.2 = 0 ∨ 11/20 ≤ cb.2) →
      ((l.foldl (childStep tl) cb).2 = 0 ∨ 11/20 ≤ (l.foldl (childStep tl) cb).2) := by
    intro l
    induction l with
    | nil => exact fun cb h => h
    | cons ch rest ih => exact fun cb h => ih _ (childStep_inv tl cb ch h)
  exact this children (none, 0) (Or.inl rfl)

/-- Invariant of the main intent fold: the accumulator is either still the
empty initial triple or carries a score of at least 0.4. -/
def diInv (b : Option String × Option String × ℚ) : Prop :=
  (b.1 = none ∧ b.2.2 = 0) ∨ 2/5 ≤ b.2.2

theorem intentStep_inv (tl : List Char) (b : Option String × Option String × ℚ)
    (spec : Intent) (h : diInv b) : diInv (intentStep tl b spec) := by
  unfold intentStep diInv
  unfold diInv at h
  dsimp only
  rcases detectChild_ge tl spec.children with hc | hc
  · rw [hc]
    rw [if_neg (by norm_num : ¬ ((0:ℚ) > 0))]
    cases hf : findPos (spec.pats.map String.data) tl with
    | none =>
      simp only [hf]
      simpa using h
    | some st =>
      simp only [hf]
      dsimp only
      set bs : ℚ := 2/5 + (if st < 10 then (1:ℚ)/10 else 0) with hbs
      have hb4 : (2/5 : ℚ) ≤ bs := by
        rw [hbs]
        split <;> norm_num
      split
      · right
        exact hb4
      · exact h
  · rw [if_pos (lt_of_lt_of_le (by norm_num : (0:ℚ) < 11/20) hc)]
    split
    · right
      exact le_trans (le_trans (by norm_num : (2/5 : ℚ) ≤ 11/20) hc) (le_max_right _ _)
    · exact h

theorem detect_intent_inv (t : String) : diInv (detect_intent t) := by
  unfold detect_intent
  generalize lowerData t = tl
  have : ∀ (l : List Intent) (b : Option String × Option String × ℚ),
      diInv b → diInv (l.foldl (intentStep tl) b) := by
    intro l
    induction l with
    | nil => exact fun b h => h
    | cons x xs ih => exact fun b h => ih _ (intentStep_inv tl b x h)
  exact this INTENTS (none, none, 0) (Or.inl ⟨rfl, rfl⟩)

/-- Claim C10: whenever `detect_intent` returns a topic, its score is at
least the minimum base constant 0.4, hence at least the 0.35 intent
threshold — the topic-adoption guard `score >= INTENT_THRESHOLD` never
rejects a detected intent. -/
theorem c10_score_clears_threshold (t : String) (i : String)
    (h : (detect_intent t).1 = some i) :
    2/5 ≤ (detect_intent t).2.2 ∧ INTENT_THRESHOLD ≤ (detect_intent t).2.2 := by
  rcases detect_intent_inv t with ⟨h1, _⟩ | h2
  · rw [h] at h1
    exact absurd h1 (by simp)
  · exact ⟨h2, le_trans (by norm_num [INTENT_THRESHOLD]) h2⟩

/-! ### Quality gate (claim C4) -/

/-- A 200-character candidate containing a question mark, an empathic word
and a sensitive-topic word. -/
def c4s200 : String := "слышу? суицид " ++ String.mk (List.replicate 186 'а')

/-- A world with a locked finance topic, used to exercise the locked-topic
quality-gate call site. -/
def c4W : W :=
  { appst := { knoIdx := some none, knoDone := true, topic := some "finance",
               subtopic := none, topicStep := 0, topicLocked := true,
               topicReminded := false },
    db := { profile := some {}, events := [] } }

/-- The generic first prompt rendered for the finance topic without a
sub-topic. -/
def finLead0 : String :=
  "Сформулируй, пожалуйста, один главный вопрос или цель в этой теме."

/-- Counterexample to claim C4 as stated: (a) the 200-character reply
`c4s200` contains a question mark and an empathic word, yet the gate
rejects it (it matches the sensitive-topic pattern, which the claim's
"always accepted" clause ignores); (b) in the locked-topic branch a
rejected draft is replaced by the topic continuation string, not by the
fixed generic supportive fallback. -/
theorem c4_counterexample :
    c4s200.data.length = 200 ∧ c4s200.data.contains '?' = true ∧
    searchAny EMPATH_pats (lowerData c4s200) = true ∧
    stop_search c4s200 = true ∧
    quality_ok c4s200 = false ∧
    (webhook c4W "спокойно, всё хорошо").map Res.sends =
      some [topic_fallback "деньги/финансы" finLead0] ∧
    quality_ok (topic_draft "спокойно, всё хорошо" "деньги/финансы" finLead0) = false ∧
    topic_fallback "деньги/финансы" finLead0 ≠ FREE_FALLBACK := by
  set_option maxRecDepth 20000 in with_unfolding_all decide

/-- Claim C4 (amended): the quality gate rejects a candidate exactly when
it matches the sensitive-topic pattern, or its length falls outside the
90–500 band, or it lacks a question mark, or it lacks every empathic term;
on rejection the webhook substitutes the fixed generic supportive fallback
in the branch without a current topic, and the topic continuation prompt
(the draft without its emotion prefix) in the locked-topic branch; a
20-character reply with no question mark is always rejected, and a
200-character reply containing a question mark and an empathic word and no
sensitive-pattern match is always accepted unchanged. -/
theorem c4_quality_gate :
    (∀ s : String, quality_ok s = true ↔
      (stop_search s = false ∧ 90 ≤ s.data.length ∧ s.data.length ≤ 500 ∧
       s.data.contains '?' = true ∧ searchAny EMPATH_pats (lowerData s) = true)) ∧
    (∀ s : String, s.data.length = 20 → s.data.contains '?' = false →
      quality_ok s = false) ∧
    (∀ s : String, s.data.length = 200 → s.data.contains '?' = true →
      searchAny EMPATH_pats (lowerData s) = true → stop_search s = false →
      quality_ok s = true) ∧
    (∀ d : String, quality_ok d = false → free_final d = FREE_FALLBACK) ∧
    (∀ text title lead : String,
      quality_ok (topic_draft text title lead) = false →
      topic_final text title lead = topic_fallback title lead) := by
  have hiff : ∀ s : String, quality_ok s = true ↔
      (stop_search s = false ∧ 90 ≤ s.data.length ∧ s.data.length ≤ 500 ∧
       s.data.contains '?' = true ∧ searchAny EMPATH_pats (lowerData s) = true) := by
    intro s
    unfold quality_ok
    dsimp only
    cases h1 : stop_search s with
    | true => simp [h1]
    | false =>
      rw [if_neg (by simp [h1])]
      simp only [Bool.or_eq_true, decide_eq_true_eq, Bool.not_eq_true']
      split_ifs with h2 h3 h4
      · simp only [false_iff]
        rintro ⟨-, hA, hB, -, -⟩
        omega
      · simp only [false_iff]
        rintro ⟨-, -, -, hq, -⟩
        rw [hq] at h3
        cases h3
      · simp only [false_iff]
        rintro ⟨-, -, -, -, he⟩
        rw [he] at h4
        cases h4
      · simp only [true_iff]
        push_neg at h2
        refine ⟨trivial, by omega, by omega, ?_, ?_⟩
        · simpa using h3
        · simpa using h4
  refine ⟨hiff, ?_, ?_, ?_, ?_⟩
  · intro s hlen hq
    cases hqo : quality_ok s with
    | false => rfl
    | true =>
      obtain ⟨-, h90, -, -, -⟩ := (hiff s).mp hqo
      omega
  · intro s hlen hq he hs
    exact (hiff s).mpr ⟨hs, by omega, by omega, hq, he⟩
  · intro d hd
    unfold free_final
    rw [hd]
    rfl
  · intro text title lead hd
    unfold topic_final
    rw [hd]
    rfl

/-- Witness for C4 (amended) at concrete replies. -/
theorem c4_quality_gate_witness :
    quality_ok "aaaaaaaaaaaaaaaaaaaa" = false ∧
    free_final "aaaaaaaaaaaaaaaaaaaa" = FREE_FALLBACK :=
  ⟨c4_quality_gate.2.1 "aaaaaaaaaaaaaaaaaaaa" (by with_unfolding_all decide)
      (by with_unfolding_all decide),
   c4_quality_gate.2.2.2.1 "aaaaaaaaaaaaaaaaaaaa"
      (c4_quality_gate.2.1 "aaaaaaaaaaaaaaaaaaaa" (by with_unfolding_all decide)
        (by with_unfolding_all decide))⟩

/-! ### Crisis interception (claim C2) -/

/-- The DialogEvent row the crisis branch inserts (main.py line 536). -/
def crisisEvent : Event :=
  { role := "assistant", txt := crisisReply, phase := "support",
    emotion := "tense", relevance := false, topic := some "mood",
    subtopic := some "anxiety" }

/-- Crisis interception in the api/main.py handler: every inbound message
matching the crisis pattern — whatever else it matches — is answered with
the fixed crisis-safety reply and the handler returns at once: the app
state and the profile are untouched, only the crisis log row is appended,
and the trace shows that topic detection, profile update, reply
composition and the quality gate never ran. -/
theorem webhook_crisis (w : W) (raw : String)
    (h : crisis_detect (pyStrip raw) = true) :
    ∃ r : Res, webhook w raw = some r ∧
      r.sends = [crisisReply] ∧
      r.trace = [Stage.crisis] ∧
      r.w.appst = w.appst ∧
      r.w.db.profile = w.db.profile ∧
      r.w.db.events = w.db.events ++ [crisisEvent] ∧
      Stage.intentDetect ∉ r.trace ∧
      Stage.profileUpdate ∉ r.trace ∧
      Stage.qualityGate ∉ r.trace ∧
      Stage.topicReply ∉ r.trace ∧
      Stage.freeReply ∉ r.trace := by
  have heq : webhook w raw =
      some ⟨{ w with db := addEvent w.db crisisEvent }, [crisisReply], [Stage.crisis]⟩ := by
    unfold webhook
    dsimp only
    rw [if_pos h]
    rfl
  refine ⟨_, heq, rfl, rfl, rfl, rfl, rfl, ?_, ?_, ?_, ?_, ?_⟩
  all_goals simp

/-- Crisis interception in the routes handler, for messages outside the
`/humor` branch: only the humor-flag check precedes it, so the result is
the crisis-safety reply appended to the sends, the crisis log row appended
to the events, and at most the humor flag changed. -/
theorem rtProcess_crisis (s : RT.St) (m : RT.Msg)
    (hcr : crisis_detect (pyStrip m.text) = true)
    (hhum : isPre "/humor".data (lowerData (pyStrip m.text)) = false) :
    ∃ hOn : Bool, RT.process s (some m) =
      { s with humorOn := hOn,
               sends := s.sends ++ [RT.rtCrisisReply],
               events := s.events ++ [("assistant", RT.rtCrisisReply)] } := by
  unfold RT.process
  dsimp only
  rw [if_neg (by simp [hhum]), if_pos hcr]
  by_cases hreg : (wordMatch "пошути" (lowerData (pyStrip m.text)) ||
      searchAny ["немного юмора", "чуть иронии"] (lowerData (pyStrip m.text))) = true
  · rw [if_pos hreg]
    exact ⟨true, rfl⟩
  · rw [if_neg hreg]
    exact ⟨s.humorOn, rfl⟩

/-- The crisis-matching `/humor` update of the C2 counterexample. -/
def c2u : RT.Upd :=
  { updateId := none, message := some { text := "/humor не хочу жить" } }

/-- Counterexample to claim C2 as stated: in the routes handler
(routes/telegram.py lines 78-84) the `/humor` toggle precedes crisis
interception, so the crisis-matching message "/humor не хочу жить" is
answered with the humor-toggle reply, no DialogEvent is inserted, and the
crisis-safety reply is never sent. -/
theorem c2_counterexample :
    crisis_detect (pyStrip "/humor не хочу жить") = true ∧
    (RT.rtWebhook {} c2u).sends = ["Юмор выключен 👍"] ∧
    (RT.rtWebhook {} c2u).events = [] ∧
    RT.rtCrisisReply ∉ (RT.rtWebhook {} c2u).sends := by
  with_unfolding_all decide

/-- Claim C2 (amended): in the api/main.py handler every crisis-matching
message is answered with the fixed crisis-safety reply and returns before
topic detection, profile update, reply composition and the quality gate
ever run; in the api/routes/telegram.py handler the same crisis
interception handles every crisis-matching message that does not start
with the `/humor` command (only the humor flag may additionally change),
while a crisis-matching message starting with `/humor` is answered by the
humor toggle, which precedes crisis interception there. -/
theorem c2_crisis_interception :
    (∀ (w : W) (raw : String), crisis_detect (pyStrip raw) = true →
      ∃ r : Res, webhook w raw = some r ∧
        r.sends = [crisisReply] ∧
        r.trace = [Stage.crisis] ∧
        r.w.appst = w.appst ∧
        r.w.db.profile = w.db.profile ∧
        r.w.db.events = w.db.events ++ [crisisEvent] ∧
        Stage.intentDetect ∉ r.trace ∧
        Stage.profileUpdate ∉ r.trace ∧
        Stage.qualityGate ∉ r.trace ∧
        Stage.topicReply ∉ r.trace ∧
        Stage.freeReply ∉ r.trace) ∧
    (∀ (s : RT.St) (m : RT.Msg), crisis_detect (pyStrip m.text) = true →
      isPre "/humor".data (lowerData (pyStrip m.text)) = false →
      ∃ hOn : Bool, RT.process s (some m) =
        { s with humorOn := hOn,
                 sends := s.sends ++ [RT.rtCrisisReply],
                 events := s.events ++ [("assistant", RT.rtCrisisReply)] }) :=
  ⟨webhook_crisis, rtProcess_crisis⟩

/-- Witness for C2 (amended): the crisis message «суицид, работа достала»
(also matching the sensitive-topic pattern and the work classifier) gets
the crisis reply alone in the main handler, and «не хочу жить» gets the
crisis reply in the routes handler. -/
theorem c2_crisis_interception_witness :
    (∃ r : Res, webhook { appst := { knoDone := true }, db := {} }
        "суицид, работа достала" = some r ∧
      r.sends = [crisisReply] ∧ r.trace = [Stage.crisis]) ∧
    (∃ hOn : Bool, RT.process {} (some { text := "не хочу жить" }) =
      { ({} : RT.St) with humorOn := hOn,
                          sends := ({} : RT.St).sends ++ [RT.rtCrisisReply],
                          events := ({} : RT.St).events ++
                            [("assistant", RT.rtCrisisReply)] }) := by
  constructor
  · obtain ⟨r, h1, h2, h3, -⟩ :=
      c2_crisis_interception.1 { appst := { knoDone := true }, db := {} }
        "суицид, работа достала" (by with_unfolding_all decide)
    exact ⟨r, h1, h2, h3⟩
  · exact c2_crisis_interception.2 {} { text := "не хочу жить" }
      (by with_unfolding_all decide) (by with_unfolding_all decide)

/-! ### Topic lock (claims C1 and C8) -/

/-- The world after the per-message profile update (main.py lines
606-608). -/
def wAfterProfile (w : W) (t : String) : W :=
  { w with db :=
      if (classify_relevance t).1 then
        update_profile w.db (classify_relevance t).2.1 (classify_relevance t).2.2
      else w.db }

/-- The trace prefix accumulated before the topic section. -/
def trAfterProfile (t : String) : List Stage :=
  (if (classify_relevance t).1 then [Stage.profileUpdate] else []) ++ [Stage.intentDetect]

@[simp]
theorem wAfterProfile_appst (w : W) (t : String) :
    (wAfterProfile w t).appst = w.appst := rfl

/-- Common reduction of the webhook down to `handleTopic` for a message
that triggers no safety branch, no command and no onboarding. -/
theorem webhook_to_topic (w : W) (raw : String)
    (hc : crisis_detect (pyStrip raw) = false)
    (hs : stop_search (pyStrip raw) = false)
    (hcmd : normalize_command (pyStrip raw) = none)
    (hstart : isStartText (lowerData (pyStrip raw)) = false)
    (hdone : w.appst.knoDone = true) :
    webhook w raw =
      handleTopic (wAfterProfile w (pyStrip raw)) (pyStrip raw)
        (detect_emotion (pyStrip raw)) (classify_relevance (pyStrip raw)).1
        (trAfterProfile (pyStrip raw)) := by
  unfold webhook
  dsimp only
  rw [if_neg (by simp [hc]), if_neg (by simp [hs]), hcmd]
  dsimp only
  rw [if_neg (by simp [hstart, hdone])]
  rfl

/-- The redirect path of the topic controller: locked topic, classifier
drift, no reminder pending yet. -/
theorem webhook_locked_redirect (w : W) (raw : String) (tp title : String)
    (hc : crisis_detect (pyStrip raw) = false)
    (hs : stop_search (pyStrip raw) = false)
    (hcmd : normalize_command (pyStrip raw) = none)
    (hstart : isStartText (lowerData (pyStrip raw)) = false)
    (hdone : w.appst.knoDone = true)
    (htp : w.appst.topic = some tp)
    (hlock : w.appst.topicLocked = true)
    (hrem : w.appst.topicReminded = false)
    (hoff : going_off w.appst.topic w.appst.subtopic
        (detect_intent (pyStrip raw)).1 (detect_intent (pyStrip raw)).2.1 = true)
    (htitle : titleOf tp w.appst.subtopic = some title) :
    ∃ r : Res, webhook w raw = some r ∧
      r.sends = [redirect_reply title] ∧
      r.w.appst = { w.appst with topicReminded := true } := by
  rw [webhook_to_topic w raw hc hs hcmd hstart hdone]
  rw [htp] at hoff
  unfold handleTopic
  dsimp only
  simp only [wAfterProfile_appst, hlock, htp, hrem, hoff, htitle, Bool.not_true,
    Bool.not_false, Bool.false_and, Bool.and_true, Bool.false_eq_true, if_false,
    if_true]
  exact ⟨_, rfl, rfl, rfl⟩

/-- The let-through path of the topic controller: locked topic and no
pending redirect (either the message stays on topic or the reminder was
already issued); the reply is the next topic prompt and the step counter
advances. -/
theorem webhook_locked_letthrough (w : W) (raw : String) (tp title lead : String)
    (hc : crisis_detect (pyStrip raw) = false)
    (hs : stop_search (pyStrip raw) = false)
    (hcmd : normalize_command (pyStrip raw) = none)
    (hstart : isStartText (lowerData (pyStrip raw)) = false)
    (hdone : w.appst.knoDone = true)
    (htp : w.appst.topic = some tp)
    (hlock : w.appst.topicLocked = true)
    (hlet : (going_off w.appst.topic w.appst.subtopic
        (detect_intent (pyStrip raw)).1 (detect_intent (pyStrip raw)).2.1 &&
        !w.appst.topicReminded) = false)
    (htitle : titleOf tp w.appst.subtopic = some title)
    (hlead : topic_question tp w.appst.subtopic w.appst.topicStep = some lead) :
    ∃ r : Res, webhook w raw = some r ∧
      r.sends = [topic_final (pyStrip raw) title lead] ∧
      r.w.appst = { w.appst with topicStep := w.appst.topicStep + 1, topicReminded := false } := by
  rw [webhook_to_topic w raw hc hs hcmd hstart hdone]
  rw [htp] at hlet
  unfold handleTopic
  dsimp only
  simp only [wAfterProfile_appst, hlock, htp, hlet, htitle, hlead, Bool.not_true,
    Bool.false_and, Bool.false_eq_true, if_false, if_true]
  exact ⟨_, rfl, rfl, rfl⟩

/-- Claim C1: with a locked current topic and no pending reminder, a
single off-topic message (the classifier proposes a different topic or
sub-topic) yields exactly one redirect reply, sets `topic_reminded` and
leaves `topic_step` unchanged; the next message that is not a command or
safety hit — in particular a second consecutive off-topic message, or the
on-topic message of the literal scenario — is let through and answered
with the normal topic prompt, advancing `topic_step` by one. -/
theorem c1_topic_lock (w : W) (raw1 raw2 : String) (tp title lead : String)
    (hdone : w.appst.knoDone = true)
    (htp : w.appst.topic = some tp)
    (hlock : w.appst.topicLocked = true)
    (hrem : w.appst.topicReminded = false)
    (htitle : titleOf tp w.appst.subtopic = some title)
    (hlead : topic_question tp w.appst.subtopic w.appst.topicStep = some lead)
    (h1c : crisis_detect (pyStrip raw1) = false)
    (h1s : stop_search (pyStrip raw1) = false)
    (h1cmd : normalize_command (pyStrip raw1) = none)
    (h1start : isStartText (lowerData (pyStrip raw1)) = false)
    (h1off : going_off w.appst.topic w.appst.subtopic
        (detect_intent (pyStrip raw1)).1 (detect_intent (pyStrip raw1)).2.1 = true)
    (h2c : crisis_detect (pyStrip raw2) = false)
    (h2s : stop_search (pyStrip raw2) = false)
    (h2cmd : normalize_command (pyStrip raw2) = none)
    (h2start : isStartText (lowerData (pyStrip raw2)) = false) :
    ∃ r1 : Res, webhook w raw1 = some r1 ∧
      r1.sends = [redirect_reply title] ∧
      r1.w.appst = { w.appst with topicReminded := true } ∧
      ∃ r2 : Res, webhook r1.w raw2 = some r2 ∧
        r2.sends = [topic_final (pyStrip raw2) title lead] ∧
        r2.w.appst.topicStep = w.appst.topicStep + 1 ∧
        r2.w.appst.topicReminded = false := by
  obtain ⟨r1, he1, hs1, ha1⟩ :=
    webhook_locked_redirect w raw1 tp title h1c h1s h1cmd h1start hdone htp hlock
      hrem h1off htitle
  refine ⟨r1, he1, hs1, ha1, ?_⟩
  have hdone2 : r1.w.appst.knoDone = true := by rw [ha1]; exact hdone
  have htp2 : r1.w.appst.topic = some tp := by rw [ha1]; exact htp
  have hlock2 : r1.w.appst.topicLocked = true := by rw [ha1]; exact hlock
  have hrem2 : r1.w.appst.topicReminded = true := by rw [ha1]
  have hsub2 : r1.w.appst.subtopic = w.appst.subtopic := by rw [ha1]
  have hstep2 : r1.w.appst.topicStep = w.appst.topicStep := by rw [ha1]
  have hlet : (going_off r1.w.appst.topic r1.w.appst.subtopic
      (detect_intent (pyStrip raw2)).1 (detect_intent (pyStrip raw2)).2.1 &&
      !r1.w.appst.topicReminded) = false := by
    rw [hrem2]
    simp
  obtain ⟨r2, he2, hs2, ha2⟩ :=
    webhook_locked_letthrough r1.w raw2 tp title lead h2c h2s h2cmd h2start hdone2
      htp2 hlock2 hlet (by rw [hsub2]; exact htitle)
      (by rw [hsub2, hstep2]; exact hlead)
  refine ⟨r2, he2, hs2, ?_, ?_⟩
  · rw [ha2]
    dsimp only
    rw [hstep2]
  · rw [ha2]

/-- The initial world of the literal C1 scenario: finance locked at step
0, reminder clear. -/
def c1W : W :=
  { appst := { knoIdx := some none, knoDone := true, topic := some "finance",
               subtopic := none, topicStep := 0, topicLocked := true,
               topicReminded := false },
    db := { profile := some {}, events := [] } }

set_option maxRecDepth 40000 in
/-- Witness for C1: the literal scenario — finance locked, the drift
message «что делать с мужем» (classified as relations) gets the single
redirect with the step staying 0, and the on-topic message «как вести
бюджет» is answered with the finance prompt, the step becoming 1. -/
theorem c1_topic_lock_witness :
    ∃ r1 : Res, webhook c1W "что делать с мужем" = some r1 ∧
      r1.sends = [redirect_reply "деньги/финансы"] ∧
      r1.w.appst = { c1W.appst with topicReminded := true } ∧
      ∃ r2 : Res, webhook r1.w "как вести бюджет" = some r2 ∧
        r2.sends = [topic_final (pyStrip "как вести бюджет") "деньги/финансы" finLead0] ∧
        r2.w.appst.topicStep = c1W.appst.topicStep + 1 ∧
        r2.w.appst.topicReminded = false :=
  c1_topic_lock c1W "что делать с мужем" "как вести бюджет" "finance"
    "деньги/финансы" finLead0
    (by with_unfolding_all decide) (by with_unfolding_all decide)
    (by with_unfolding_all decide) (by with_unfolding_all decide)
    (by with_unfolding_all decide) (by with_unfolding_all decide)
    (by with_unfolding_all decide) (by with_unfolding_all decide)
    (by with_unfolding_all decide) (by with_unfolding_all decide)
    (by with_unfolding_all decide) (by with_unfolding_all decide)
    (by with_unfolding_all decide) (by with_unfolding_all decide)
    (by with_unfolding_all decide)

/-- A world with a locked finance topic and a pending reminder, hit by a
second consecutive off-topic message. -/
def c8W : W :=
  { appst := { knoIdx := some none, knoDone := true, topic := some "finance",
               subtopic := none, topicStep := 0, topicLocked := true,
               topicReminded := true },
    db := { profile := some {}, events := [] } }

/-- Counterexample to claim C8 as stated: with `topic_reminded = true` and
a locked finance topic, the off-topic message «что делать с мужем» is let
through (one normal reply, step advances to 1) and the handler resets
`topic_reminded` to false, although the user did not answer on-topic. -/
theorem c8_counterexample :
    going_off c8W.appst.topic c8W.appst.subtopic
        (detect_intent (pyStrip "что делать с мужем")).1
        (detect_intent (pyStrip "что делать с мужем")).2.1 = true ∧
    c8W.appst.topicReminded = true ∧
    (webhook c8W "что делать с мужем").map (fun r => r.w.appst.topicReminded) =
      some false ∧
    (webhook c8W "что делать с мужем").map (fun r => r.w.appst.topicStep) = some 1 ∧
    (webhook c8W "что делать с мужем").map (fun r => r.sends.length) = some 1 := by
  set_option maxRecDepth 20000 in with_unfolding_all decide

/-- Claim C8 (amended): once `topic_reminded` has been set by a redirect,
the next message that is let through resets it to false whether it is
on-topic or off-topic — the code resets the flag on every non-redirect
pass through the locked-topic branch, so a second consecutive off-topic
message that is let through clears the reminder (and a third off-topic
message would be redirected again). -/
theorem c8_reminded_reset (w : W) (raw : String) (tp title lead : String)
    (hc : crisis_detect (pyStrip raw) = false)
    (hs : stop_search (pyStrip raw) = false)
    (hcmd : normalize_command (pyStrip raw) = none)
    (hstart : isStartText (lowerData (pyStrip raw)) = false)
    (hdone : w.appst.knoDone = true)
    (htp : w.appst.topic = some tp)
    (hlock : w.appst.topicLocked = true)
    (hlet : (going_off w.appst.topic w.appst.subtopic
        (detect_intent (pyStrip raw)).1 (detect_intent (pyStrip raw)).2.1 &&
        !w.appst.topicReminded) = false)
    (htitle : titleOf tp w.appst.subtopic = some title)
    (hlead : topic_question tp w.appst.subtopic w.appst.topicStep = some lead) :
    ∃ r : Res, webhook w raw = some r ∧
      r.w.appst.topicReminded = false ∧
      r.w.appst.topicStep = w.appst.topicStep + 1 ∧
      r.sends = [topic_final (pyStrip raw) title lead] := by
  obtain ⟨r, he, hsends, ha⟩ :=
    webhook_locked_letthrough w raw tp title lead hc hs hcmd hstart hdone htp
      hlock hlet htitle hlead
  exact ⟨r, he, by rw [ha], by rw [ha], hsends⟩

set_option maxRecDepth 40000 in
/-- Witness for C8 (amended): the second consecutive off-topic message of
the counterexample scenario clears the reminder. -/
theorem c8_reminded_reset_witness :
    ∃ r : Res, webhook c8W "что делать с мужем" = some r ∧
      r.w.appst.topicReminded = false ∧
      r.w.appst.topicStep = c8W.appst.topicStep + 1 ∧
      r.sends = [topic_final (pyStrip "что делать с мужем") "деньги/финансы" finLead0] :=
  c8_reminded_reset c8W "что делать с мужем" "finance" "деньги/финансы" finLead0
    (by with_unfolding_all decide) (by with_unfolding_all decide)
    (by with_unfolding_all decide) (by with_unfolding_all decide)
    (by with_unfolding_all decide) (by with_unfolding_all decide)
    (by with_unfolding_all decide) (by with_unfolding_all decide)
    (by with_unfolding_all decide) (by with_unfolding_all decide)

/-! ### Idempotency of the routes webhook (claim C7) -/

theorem rtKno_processed (s : RT.St) (t : String) :
    (RT.rtKno s t).processed = s.processed := by
  unfold RT.rtKno
  dsimp only
  split <;> rfl

theorem rtFree_processed (s : RT.St) (t : String) :
    (RT.rtFree s t).processed = s.processed := rfl

/-- Message processing never touches the `processed_updates` table. -/
theorem process_processed (s : RT.St) (m : Option RT.Msg) :
    (RT.process s m).processed = s.processed := by
  unfold RT.process RT.rtKno RT.rtFree
  cases m with
  | none => rfl
  | some mm =>
    dsimp only
    repeat' split
    all_goals rfl

/-- The `/humor on` update carrying identifier 1, delivered twice in the
counterexample. -/
def c7u : RT.Upd := { updateId := some 1, message := some { text := "/humor on" } }

/-- Counterexample to claim C7 as stated: the `/humor on` update (which
the handler answers without logging any DialogEvent) delivered twice under
one `update_id` yields one outbound send and zero DialogEvent insertions —
not "exactly one DialogEvent insertion". -/
theorem c7_counterexample :
    (RT.rtWebhook (RT.rtWebhook {} c7u) c7u).events.length = 0 ∧
    (RT.rtWebhook (RT.rtWebhook {} c7u) c7u).sends.length = 1 ∧
    (RT.rtWebhook (RT.rtWebhook {} c7u) c7u).humorOn = true := by
  with_unfolding_all decide

/-- Claim C7 (amended): an update whose `update_id` is already recorded is
acknowledged and dropped with no state change at all (no DialogEvent
insertion, no outbound send); a first delivery records its `update_id`, so
delivering the same update twice performs its DialogEvent insertions and
outbound sends exactly once; an update without an `update_id` skips the
idempotency check and is processed every time. -/
theorem c7_idempotency :
    (∀ (s : RT.St) (u : RT.Upd) (n : Int), u.updateId = some n →
        n ∈ s.processed → RT.rtWebhook s u = s) ∧
    (∀ (s : RT.St) (u : RT.Upd) (n : Int), u.updateId = some n →
        n ∈ (RT.rtWebhook s u).processed) ∧
    (∀ (s : RT.St) (u : RT.Upd) (n : Int), u.updateId = some n →
        RT.rtWebhook (RT.rtWebhook s u) u = RT.rtWebhook s u) ∧
    (∀ (s : RT.St) (u : RT.Upd), u.updateId = none →
        RT.rtWebhook s u = RT.process s u.message) := by
  have h1 : ∀ (s : RT.St) (u : RT.Upd) (n : Int), u.updateId = some n →
      n ∈ s.processed → RT.rtWebhook s u = s := by
    intro s u n hu hm
    unfold RT.rtWebhook
    rw [hu]
    dsimp only
    rw [if_pos hm]
  have h2 : ∀ (s : RT.St) (u : RT.Upd) (n : Int), u.updateId = some n →
      n ∈ (RT.rtWebhook s u).processed := by
    intro s u n hu
    unfold RT.rtWebhook
    rw [hu]
    dsimp only
    by_cases hm : n ∈ s.processed
    · rw [if_pos hm]
      exact hm
    · rw [if_neg hm, process_processed]
      exact List.mem_cons_self _ _
  refine ⟨h1, h2, ?_, ?_⟩
  · intro s u n hu
    exact h1 _ u n hu (h2 s u n hu)
  · intro s u hu
    unfold RT.rtWebhook
    rw [hu]

/-- Witness for C7 (amended): the second delivery of the concrete update
is a no-op, and an update without an identifier is processed directly. -/
theorem c7_idempotency_witness :
    RT.rtWebhook (RT.rtWebhook {} c7u) c7u = RT.rtWebhook {} c7u ∧
    RT.rtWebhook {} { updateId := none, message := some { text := "/humor on" } } =
      RT.process {} (some { text := "/humor on" }) :=
  ⟨c7_idempotency.2.2.1 {} c7u 1 rfl,
   c7_idempotency.2.2.2 {} { updateId := none, message := some { text := "/humor on" } } rfl⟩

/-! ### Onboarding finalization (claim C3) -/

theorem KNO_MAP_ei1 : KNO_MAP "ei_q1" = some ('E', 'I') := rfl
theorem KNO_MAP_sn1 : KNO_MAP "sn_q1" = some ('S', 'N') := rfl
theorem KNO_MAP_tf1 : KNO_MAP "tf_q1" = some ('T', 'F') := rfl
theorem KNO_MAP_jp1 : KNO_MAP "jp_q1" = some ('J', 'P') := rfl
theorem KNO_MAP_jp2 : KNO_MAP "jp_q2" = some ('J', 'P') := rfl
theorem KNO_MAP_ei2 : KNO_MAP "ei_q2" = some ('E', 'I') := rfl

theorem bump_E (c : KnoCounts) : bumpLetter c 'E' = { c with cE := c.cE + 1 } := rfl
theorem bump_I (c : KnoCounts) : bumpLetter c 'I' = { c with cI := c.cI + 1 } := rfl
theorem bump_S (c : KnoCounts) : bumpLetter c 'S' = { c with cS := c.cS + 1 } := rfl
theorem bump_N (c : KnoCounts) : bumpLetter c 'N' = { c with cN := c.cN + 1 } := rfl
theorem bump_T (c : KnoCounts) : bumpLetter c 'T' = { c with cT := c.cT + 1 } := rfl
theorem bump_F (c : KnoCounts) : bumpLetter c 'F' = { c with cF := c.cF + 1 } := rfl
theorem bump_J (c : KnoCounts) : bumpLetter c 'J' = { c with cJ := c.cJ + 1 } := rfl
theorem bump_P (c : KnoCounts) : bumpLetter c 'P' = { c with cP := c.cP + 1 } := rfl

/-- The tallies computed from the six answers of one questionnaire run. -/
theorem knoCounts_six (a1 a2 a3 a4 a5 a6 : ℕ) :
    knoCounts [("ei_q1", a1), ("sn_q1", a2), ("tf_q1", a3), ("jp_q1", a4),
               ("jp_q2", a5), ("ei_q2", a6)] =
      some { cE := (if a1 = 1 then 1 else 0) + (if a6 = 1 then 1 else 0),
             cI := (if a1 = 1 then 0 else 1) + (if a6 = 1 then 0 else 1),
             cS := if a2 = 1 then 1 else 0,
             cN := if a2 = 1 then 0 else 1,
             cT := if a3 = 1 then 1 else 0,
             cF := if a3 = 1 then 0 else 1,
             cJ := (if a4 = 1 then 1 else 0) + (if a5 = 1 then 1 else 0),
             cP := (if a4 = 1 then 0 else 1) + (if a5 = 1 then 0 else 1) } := by
  by_cases h1 : a1 = 1 <;> by_cases h2 : a2 = 1 <;> by_cases h3 : a3 = 1 <;>
    by_cases h4 : a4 = 1 <;> by_cases h5 : a5 = 1 <;> by_cases h6 : a6 = 1 <;>
    simp [knoCounts, List.foldl, KNO_MAP_ei1, KNO_MAP_sn1, KNO_MAP_tf1, KNO_MAP_jp1,
      KNO_MAP_jp2, KNO_MAP_ei2, bump_E, bump_I, bump_S, bump_N, bump_T, bump_F,
      bump_J, bump_P, h1, h2, h3, h4, h5, h6]

/-- One non-final questionnaire step. -/
theorem kno_step_go (w : W) (t : String) (k : Nat) (q : String × String)
    (ans' : List (String × Nat))
    (hidx : w.appst.knoIdx = some (some k))
    (hget : KNO.get? k = some q)
    (hlt : ¬ (k + 1 ≥ KNO.length))
    (hans : updateAssoc w.appst.knoAnswers q.1
        (pick_by_keywords q.1 ((stripData t.data).map pyLowerChar)) = ans') :
    kno_step w t =
      some ({ w with appst :=
                { w.appst with knoIdx := some (some (k + 1)), knoAnswers := ans' } },
            (KNO.get? (k + 1)).map Prod.snd) := by
  unfold kno_step
  dsimp only
  rw [hidx]
  dsimp only
  rw [hget]
  dsimp only
  rw [hans, if_neg hlt]

/-- The final questionnaire step: tally, upsert, state flip. -/
theorem kno_step_fin (w : W) (t : String) (q : String × String)
    (ans' : List (String × Nat)) (c : KnoCounts)
    (hidx : w.appst.knoIdx = some (some 5))
    (hget : KNO.get? 5 = some q)
    (hge : 5 + 1 ≥ KNO.length)
    (hans : updateAssoc w.appst.knoAnswers q.1
        (pick_by_keywords q.1 ((stripData t.data).map pyLowerChar)) = ans')
    (hcnt : knoCounts ans' = some c) :
    kno_step w t =
      some ({ appst :=
                { w.appst with knoDone := true, knoIdx := some none, knoAnswers := ans' },
              db := knoUpsert w.db (knoShare c.cE c.cI) (knoShare c.cN c.cS)
                      (knoShare c.cT c.cF) (knoShare c.cJ c.cP) }, none) := by
  unfold kno_step
  dsimp only
  rw [hidx]
  dsimp only
  rw [hget]
  dsimp only
  rw [hans, if_pos hge, hcnt]

/-- `a / (s or 1)` is `a / max s 1` for natural tallies. -/
theorem knoShare_max (a b : Nat) :
    knoShare a b = (a : ℚ) / ((max (a + b) 1 : ℕ) : ℚ) := by
  unfold knoShare
  by_cases h : a + b = 0
  · rw [if_pos h, h]
    norm_num
  · rw [if_neg h, Nat.max_eq_left (Nat.one_le_iff_ne_zero.mpr h)]

/-- Peeling one questionnaire message off a run. -/
theorem kno_run_cons (w : W) (t : String) (ts : List String) (w' : W)
    (nx : Option String) (h : kno_step w t = some (w', nx)) :
    kno_run w (t :: ts) = kno_run w' ts := by
  simp only [kno_run, h]

/-- Questionnaire state after `k` registered answers. -/
def knoW (db0 : Db) (k : Nat) (ans : List (String × Nat)) : W :=
  { appst := { knoIdx := some (some k), knoAnswers := ans }, db := db0 }

/-- The association list of the first `k` normalized answers of a run. -/
def knoAns (t1 t2 t3 t4 t5 t6 : String) (k : Nat) : List (String × Nat) :=
  [("ei_q1", knoChoice "ei_q1" t1), ("sn_q1", knoChoice "sn_q1" t2),
   ("tf_q1", knoChoice "tf_q1" t3), ("jp_q1", knoChoice "jp_q1" t4),
   ("jp_q2", knoChoice "jp_q2" t5), ("ei_q2", knoChoice "ei_q2" t6)].take k


/-- The stored E-axis share of a run. -/
def shE (t1 t6 : String) : ℚ :=
  knoShare (cnt1 "ei_q1" t1 + cnt1 "ei_q2" t6) (cnt2 "ei_q1" t1 + cnt2 "ei_q2" t6)

/-- The stored N-axis share of a run (the `sn` column holds the N share). -/
def shN (t2 : String) : ℚ := knoShare (cnt2 "sn_q1" t2) (cnt1 "sn_q1" t2)

/-- The stored T-axis share of a run. -/
def shT (t3 : String) : ℚ := knoShare (cnt1 "tf_q1" t3) (cnt2 "tf_q1" t3)

/-- The stored J-axis share of a run. -/
def shJ (t4 t5 : String) : ℚ :=
  knoShare (cnt1 "jp_q1" t4 + cnt1 "jp_q2" t5) (cnt2 "jp_q1" t4 + cnt2 "jp_q2" t5)

/-- Claim C3: registering the last of the six questionnaire answers — for
every sequence of six answer texts — upserts a profile whose four stored
axis scores are exactly the tally shares `count_letter / max (count_letter
+ count_opposite) 1` of the normalized answers (the stored columns hold
the E, N, T and J shares), with confidence exactly the fixed initial
constant 0.4. -/
theorem c3_onboarding_tally (t1 t2 t3 t4 t5 t6 : String) (db0 : Db)
    (hdb : db0.profile = none) :
    ∃ wF : W,
      kno_run (kno_start { appst := {}, db := db0 }) [t1, t2, t3, t4, t5, t6] =
        some wF ∧
      ∃ p : Profile, wF.db.profile = some p ∧
        p.ei = ((cnt1 "ei_q1" t1 + cnt1 "ei_q2" t6 : ℕ) : ℚ) /
          ((max ((cnt1 "ei_q1" t1 + cnt1 "ei_q2" t6) +
                 (cnt2 "ei_q1" t1 + cnt2 "ei_q2" t6)) 1 : ℕ) : ℚ) ∧
        p.sn = ((cnt2 "sn_q1" t2 : ℕ) : ℚ) /
          ((max (cnt2 "sn_q1" t2 + cnt1 "sn_q1" t2) 1 : ℕ) : ℚ) ∧
        p.tf = ((cnt1 "tf_q1" t3 : ℕ) : ℚ) /
          ((max (cnt1 "tf_q1" t3 + cnt2 "tf_q1" t3) 1 : ℕ) : ℚ) ∧
        p.jp = ((cnt1 "jp_q1" t4 + cnt1 "jp_q2" t5 : ℕ) : ℚ) /
          ((max ((cnt1 "jp_q1" t4 + cnt1 "jp_q2" t5) +
                 (cnt2 "jp_q1" t4 + cnt2 "jp_q2" t5)) 1 : ℕ) : ℚ) ∧
        p.confidence = 2/5 := by
  have hc := knoCounts_six (knoChoice "ei_q1" t1) (knoChoice "sn_q1" t2)
    (knoChoice "tf_q1" t3) (knoChoice "jp_q1" t4) (knoChoice "jp_q2" t5)
    (knoChoice "ei_q2" t6)
  have e1 : kno_run (kno_start { appst := {}, db := db0 }) [t1, t2, t3, t4, t5, t6] =
      kno_run (knoW db0 1 (knoAns t1 t2 t3 t4 t5 t6 1)) [t2, t3, t4, t5, t6] :=
    kno_run_cons _ t1 _ _ _
      (kno_step_go (kno_start { appst := {}, db := db0 }) t1 0 _
        (knoAns t1 t2 t3 t4 t5 t6 1) rfl rfl (by decide) rfl)
  have e2 : kno_run (knoW db0 1 (knoAns t1 t2 t3 t4 t5 t6 1)) [t2, t3, t4, t5, t6] =
      kno_run (knoW db0 2 (knoAns t1 t2 t3 t4 t5 t6 2)) [t3, t4, t5, t6] :=
    kno_run_cons _ t2 _ _ _
      (kno_step_go (knoW db0 1 (knoAns t1 t2 t3 t4 t5 t6 1)) t2 1 _
        (knoAns t1 t2 t3 t4 t5 t6 2) rfl rfl (by decide) rfl)
  have e3 : kno_run (knoW db0 2 (knoAns t1 t2 t3 t4 t5 t6 2)) [t3, t4, t5, t6] =
      kno_run (knoW db0 3 (knoAns t1 t2 t3 t4 t5 t6 3)) [t4, t5, t6] :=
    kno_run_cons _ t3 _ _ _
      (kno_step_go (knoW db0 2 (knoAns t1 t2 t3 t4 t5 t6 2)) t3 2 _
        (knoAns t1 t2 t3 t4 t5 t6 3) rfl rfl (by decide) rfl)
  have e4 : kno_run (knoW db0 3 (knoAns t1 t2 t3 t4 t5 t6 3)) [t4, t5, t6] =
      kno_run (knoW db0 4 (knoAns t1 t2 t3 t4 t5 t6 4)) [t5, t6] :=
    kno_run_cons _ t4 _ _ _
      (kno_step_go (knoW db0 3 (knoAns t1 t2 t3 t4 t5 t6 3)) t4 3 _
        (knoAns t1 t2 t3 t4 t5 t6 4) rfl rfl (by decide) rfl)
  have e5 : kno_run (knoW db0 4 (knoAns t1 t2 t3 t4 t5 t6 4)) [t5, t6] =
      kno_run (knoW db0 5 (knoAns t1 t2 t3 t4 t5 t6 5)) [t6] :=
    kno_run_cons _ t5 _ _ _
      (kno_step_go (knoW db0 4 (knoAns t1 t2 t3 t4 t5 t6 4)) t5 4 _
        (knoAns t1 t2 t3 t4 t5 t6 5) rfl rfl (by decide) rfl)
  have e6 : kno_run (knoW db0 5 (knoAns t1 t2 t3 t4 t5 t6 5)) [t6] =
      kno_run { appst := { knoIdx := some none,
                           knoAnswers := knoAns t1 t2 t3 t4 t5 t6 6, knoDone := true },
                db := knoUpsert db0 (shE t1 t6) (shN t2) (shT t3) (shJ t4 t5) } [] :=
    kno_run_cons _ t6 _ _ _
      (kno_step_fin (knoW db0 5 (knoAns t1 t2 t3 t4 t5 t6 5)) t6 _
        (knoAns t1 t2 t3 t4 t5 t6 6) _ rfl rfl (by decide) rfl hc)
  have hrun : kno_run (kno_start { appst := {}, db := db0 }) [t1, t2, t3, t4, t5, t6] =
      some { appst := { knoIdx := some none,
                        knoAnswers := knoAns t1 t2 t3 t4 t5 t6 6, knoDone := true },
             db := knoUpsert db0 (shE t1 t6) (shN t2) (shT t3) (shJ t4 t5) } :=
    e1.trans (e2.trans (e3.trans (e4.trans (e5.trans (e6.trans rfl)))))
  have hup : (knoUpsert db0 (shE t1 t6) (shN t2) (shT t3) (shJ t4 t5)).profile =
      some { ei := shE t1 t6, sn := shN t2, tf := shT t3, jp := shJ t4 t5,
             confidence := 2/5, mbti := none, anchors := [] } := by
    unfold knoUpsert
    rw [hdb]
  refine ⟨_, hrun, _, hup, ?_, ?_, ?_, ?_, rfl⟩
  · exact knoShare_max _ _
  · exact knoShare_max _ _
  · exact knoShare_max _ _
  · exact knoShare_max _ _

/-- Witness for C3: the round-trip scenario answers "1", "2", "1", "1",
"2", "1" produce the hand-computed tally shares with confidence 0.4. -/
theorem c3_onboarding_tally_witness :
    ∃ wF : W,
      kno_run (kno_start { appst := {}, db := { profile := none, events := [] } })
        ["1", "2", "1", "1", "2", "1"] = some wF ∧
      ∃ p : Profile, wF.db.profile = some p ∧
        p.ei = ((cnt1 "ei_q1" "1" + cnt1 "ei_q2" "1" : ℕ) : ℚ) /
          ((max ((cnt1 "ei_q1" "1" + cnt1 "ei_q2" "1") +
                 (cnt2 "ei_q1" "1" + cnt2 "ei_q2" "1")) 1 : ℕ) : ℚ) ∧
        p.sn = ((cnt2 "sn_q1" "2" : ℕ) : ℚ) /
          ((max (cnt2 "sn_q1" "2" + cnt1 "sn_q1" "2") 1 : ℕ) : ℚ) ∧
        p.tf = ((cnt1 "tf_q1" "1" : ℕ) : ℚ) /
          ((max (cnt1 "tf_q1" "1" + cnt2 "tf_q1" "1") 1 : ℕ) : ℚ) ∧
        p.jp = ((cnt1 "jp_q1" "1" + cnt1 "jp_q2" "2" : ℕ) : ℚ) /
          ((max ((cnt1 "jp_q1" "1" + cnt1 "jp_q2" "2") +
                 (cnt2 "jp_q1" "1" + cnt2 "jp_q2" "2")) 1 : ℕ) : ℚ) ∧
        p.confidence = 2/5 :=
  c3_onboarding_tally "1" "2" "1" "1" "2" "1" { profile := none, events := [] } rfl

/-- Witness for C10: a concrete detected topic clears the threshold. -/
theorem c10_score_clears_threshold_witness :
    (detect_intent "деньги").1 = some "finance" ∧
    2/5 ≤ (detect_intent "деньги").2.2 ∧
    INTENT_THRESHOLD ≤ (detect_intent "деньги").2.2 :=
  ⟨by with_unfolding_all decide,
   c10_score_clears_threshold "деньги" "finance" (by with_unfolding_all decide)⟩

end Anima





